import Mathlib

/-! # CTelegramCore (telegram-qt): the unauthenticated key-negotiation handshake

A shallow embedding of `src/telegram-qt/CTelegramCore.cpp` and the properties
of it that the specification states.

Conventions of the embedding:

* `quint64` / `quint32` values are natural numbers; every operation that can
  leave the range of the C++ type is followed by an explicit `% 2 ^ 64`
  (or `% 2 ^ 32`), so wrap-around is part of the model;
* `qint64` values are integers, `/` and `%` on them are the truncating C++
  operators (`Int.tdiv`, `Int.tmod`);
* a byte is a `Fin 256`, a `QByteArray` is a list of bytes;
* code of the repository that is outside `CTelegramCore.cpp` (the stream class,
  `Utils`, the tag constants) is either a parameter of the model or modelled
  from the specification, and says so in its doc comment.
-/

namespace TelegramQt

/-! ## Timestamp codec -/

/-- Conversion of a `qint64` to `quint64`: the two's complement wrap. -/
def toQuint64 (i : Int) : Nat := (i % 2 ^ 64).toNat

/-- The constant `static const quint64 maxMsecValue = (1UL << 32) - 1;`
(`unsigned long` is 64 bits wide, as on the LP64 targets of the project). -/
def maxMsecValue : Nat := (1 <<< 32) - 1

/-- The function `CTelegramCore::formatTimeStamp(qint64 timeInMs)`, lines 62-70. -/
def formatTimeStamp (timeInMs : Int) : Nat :=
  let secs : Nat := toQuint64 (timeInMs.tdiv 1000)
  let msecs : Nat := (maxMsecValue / 1000 * toQuint64 (timeInMs.tmod 1000)) % 2 ^ 64
  ((secs <<< 32) % 2 ^ 64 + msecs) % 2 ^ 64

/-- The function `CTelegramCore::timeStampToMSecsSinceEpoch(quint64 ts)`, lines 72-87. -/
def timeStampToMSecsSinceEpoch (ts : Nat) : Nat :=
  let secs : Nat := ts >>> 32
  let msecs : Nat := ts &&& maxMsecValue
  let msecs : Nat := (msecs * 10000) % 2 ^ 64 / maxMsecValue
  let msecs : Nat := if msecs % 10 ≥ 5 then (msecs + 5) % 2 ^ 64 else msecs
  let msecs : Nat := msecs / 10
  ((secs * 1000) % 2 ^ 64 + msecs) % 2 ^ 64

/-- Rounding of the quotient `a / b` to the nearest integer, halves upwards: the
`round(...)` of the specification, in integer arithmetic. -/
def roundDiv (a b : Nat) : Nat := (2 * a + b) / (2 * b)

/-- The low 32 bits that section 4.4 of the specification asks of the encoder:
`round(remainder_ms * (2^32 - 1) / 1000)`. -/
def specSubSecondUnits (remainderMs : Nat) : Nat :=
  roundDiv (remainderMs * (2 ^ 32 - 1)) 1000

/-- Rounding half-up at the last decimal digit: the nearest multiple of ten, a
last digit of five or more going upwards. -/
def roundHalfUpLastDigit (m : Nat) : Nat := (m + 5) / 10 * 10

/-- The decoder as section 4.4 of the specification words it: high 32 bits are the
seconds, low 32 bits the fractional units, the units are converted by
`units * 10000 / (2^32 - 1)`, rounded half-up at the last digit and divided by
ten. No machine arithmetic: these are exact natural numbers. -/
def specDecodeTimeStamp (ts : Nat) : Nat :=
  let secs := ts / 2 ^ 32
  let units := ts % 2 ^ 32
  let roundedMs := roundHalfUpLastDigit (units * 10000 / (2 ^ 32 - 1)) / 10
  secs * 1000 + roundedMs

/-! ## Bytes, nonces and the stored fields -/

/-- One byte. -/
abbrev Byte := Fin 256

/-- A `QByteArray`: a finite sequence of bytes. -/
abbrev QByteArray := List Byte

/-- The byte `v mod 256`. -/
def toByte (v : Nat) : Byte := ⟨v % 256, Nat.mod_lt v (by decide)⟩

/-- The type `TLNumber128`: a `data` array of exactly 16 bytes. -/
structure TLNumber128 where
  data : QByteArray
  size : data.length = 16
deriving DecidableEq

/-- The type `TLNumber256`: a `data` array of exactly 32 bytes. -/
structure TLNumber256 where
  data : QByteArray
  size : data.length = 32
deriving DecidableEq

/-- The type tags of the enumeration `TLValues` that `CTelegramCore.cpp` names.
The enumeration is declared in a header outside `CTelegramCore.cpp`, so the
values are parameters of the model. -/
structure TLValues where
  ReqPQ : Nat
  ResPQ : Nat
  PQInnerData : Nat
  ReqDHParams : Nat
deriving DecidableEq

/-- The record `SRsaKey` returned by `Utils::loadKey()`. Its declaration is
outside `CTelegramCore.cpp`; following section 3 of the specification it is
`{ modulus, exponent, fingerprint }`, of which the core reads `fingersprint`. -/
structure SRsaKey where
  key : QByteArray
  exp : QByteArray
  fingersprint : Nat
deriving DecidableEq

/-- The handshake fields of a `CTelegramCore` instance. `m_pq` and
`m_serverPublicFingersprint` are `quint64`; `m_p` and `m_q` are 32 bits wide
(`requestDhParameters` writes each of them with `qToBigEndian` into a buffer of
4 bytes). -/
structure CTelegramCore where
  m_clientNonce : TLNumber128
  m_serverNonce : TLNumber128
  m_newNonce : TLNumber256
  m_pq : Nat
  m_p : Nat
  m_q : Nat
  m_serverPublicFingersprint : Nat
  m_rsaKey : SRsaKey
  m_tmpAesKey : QByteArray
  m_tmpAesIv : QByteArray
deriving DecidableEq

/-- The signals of `CTelegramCore`. -/
inductive Signal where
  | pqReceived
deriving DecidableEq

/-! ## Qt helpers -/

/-- The `n` low-order bytes of `v`, least significant first. -/
def littleEndianBytes : Nat → Nat → QByteArray
  | 0, _ => []
  | n + 1, v => toByte v :: littleEndianBytes n (v / 256)

/-- The `n` low-order bytes of `v`, most significant first. -/
def bigEndianBytes (n v : Nat) : QByteArray := (littleEndianBytes n v).reverse

/-- The number a byte sequence denotes, least significant byte first. -/
def littleEndianValue : QByteArray → Nat
  | [] => 0
  | b :: bs => b.val + 256 * littleEndianValue bs

/-- The call `QByteArray::fill(ch, size)`: the array becomes `size` copies of `ch`. -/
def fill (ch : Byte) (size : Nat) : QByteArray := List.replicate size ch

/-- The call `qToBigEndian(src, dest)` for a `src` of `width` bytes: the first
`width` bytes of `dest` are overwritten with `src`, most significant byte
first; the rest of `dest` stays. -/
def qToBigEndian (width src : Nat) (dest : QByteArray) : QByteArray :=
  bigEndianBytes width src ++ dest.drop width

/-- The call `qFromBigEndian<T>(src)` for a `T` of `width` bytes: the number that
the first `width` bytes of `src` denote, most significant byte first. -/
def qFromBigEndian (width : Nat) (src : QByteArray) : Nat :=
  (src.take width).foldl (fun acc b => acc * 256 + b.val) 0

/-! ## The stream class

`CTelegramStream` is defined outside `CTelegramCore.cpp`. Its insertion operators
are modelled from section 4.1 of the specification. Its extraction operators
have no failure channel that `CTelegramCore.cpp` looks at, so for the handshake
they are parameters: whatever value an operator leaves in its target, the
model follows the code from there. -/

/-- Modelled from the spec: `CTelegramStream::operator<<(quint32)`, which is
defined outside `CTelegramCore.cpp`. Section 4.1: unsigned integers of 32 bits
go out in little-endian byte order. -/
def writeUInt32 (v : Nat) : QByteArray := littleEndianBytes 4 v

/-- Modelled from the spec: `CTelegramStream::operator<<(quint64)`, which is
defined outside `CTelegramCore.cpp`. Section 4.1: unsigned integers of 64 bits
go out in little-endian byte order. -/
def writeUInt64 (v : Nat) : QByteArray := littleEndianBytes 8 v

/-- Modelled from the spec: `CTelegramStream::operator<<(TLValues)`, which is
defined outside `CTelegramCore.cpp`. A type tag is a 32-bit wire integer. -/
def writeTLValue (v : Nat) : QByteArray := writeUInt32 v

/-- Modelled from the spec: `CTelegramStream::operator<<(const TLNumber128 &)`,
which is defined outside `CTelegramCore.cpp`. Section 4.1: a nonce is its raw
bytes, no length prefix. -/
def writeNumber128 (n : TLNumber128) : QByteArray := n.data

/-- Modelled from the spec: `CTelegramStream::operator<<(const TLNumber256 &)`,
which is defined outside `CTelegramCore.cpp`. Section 4.1: a nonce is its raw
bytes, no length prefix. -/
def writeNumber256 (n : TLNumber256) : QByteArray := n.data

/-- The number of zero bytes that bring a length up to a multiple of four. -/
def paddingTo4 (len : Nat) : Nat := (4 - len % 4) % 4

/-- Modelled from the spec: `CTelegramStream::operator<<(const QByteArray &)`,
which is defined outside `CTelegramCore.cpp`. Section 4.1: a length prefix (one
byte if the length is below 254, otherwise a marker byte followed by a 3-byte
length), the raw bytes, then zero bytes up to a multiple of four. The marker
is 254, the first byte value that is not a length, and the 3-byte length is
little-endian as every wire integer. -/
def writeByteArray (data : QByteArray) : QByteArray :=
  let header : QByteArray :=
    if data.length < 254 then [toByte data.length]
    else toByte 254 :: littleEndianBytes 3 data.length
  header ++ data ++ List.replicate (paddingTo4 (header.length + data.length)) 0

/-- The extraction operators of `CTelegramStream` that `answerPqAuthorization`
and `whenReadyRead` use, as parameters: each takes the unread bytes and gives
the value it leaves in its target together with the bytes still unread.
`bytesRemaining` gives the count the stream reports for the unread bytes, and
`readBytes` takes the requested count first. -/
structure CTelegramStream where
  readTLValue : QByteArray → Nat × QByteArray
  readNumber128 : QByteArray → TLNumber128 × QByteArray
  readByteArray : QByteArray → QByteArray × QByteArray
  readVector64 : QByteArray → List Nat × QByteArray
  readUInt64 : QByteArray → Nat × QByteArray
  readUInt32 : QByteArray → Nat × QByteArray
  bytesRemaining : QByteArray → Nat
  readBytes : Nat → QByteArray → QByteArray × QByteArray

/-! ## First response: `answerPqAuthorization` -/

/-- What a call of `answerPqAuthorization` leaves behind: the value it returns,
the fields of the instance after the call, and the signals it emitted. -/
structure PqAnswer where
  result : Bool
  core : CTelegramCore
  emitted : List Signal
deriving DecidableEq

/-- The function `CTelegramCore::answerPqAuthorization(const QByteArray &payload)`,
lines 101-179. `findDivider` is `Utils::findDivider`, which is defined outside
`CTelegramCore.cpp` and is a parameter. The assignments to `m_p` and `m_q` keep
the low 32 bits. For `div1 = 0` the C++ division of line 150 is undefined and
nothing after it runs, while the model gives the quotient 0 and goes on;
statements about what every call returns or emits therefore assume that the
divider search, when the call gets to it, does not return 0. -/
def answerPqAuthorization (tl : TLValues) (inputStream : CTelegramStream)
    (findDivider : Nat → Nat) (core : CTelegramCore) (payload : QByteArray) : PqAnswer :=
  let responsePqValue := inputStream.readTLValue payload
  if responsePqValue.1 ≠ tl.ResPQ then
    { result := false, core := core, emitted := [] }
  else
    let clientNonce := inputStream.readNumber128 responsePqValue.2
    if clientNonce.1 ≠ core.m_clientNonce then
      { result := false, core := core, emitted := [] }
    else
      let serverNonce := inputStream.readNumber128 clientNonce.2
      let core := { core with m_serverNonce := serverNonce.1 }
      let pq := inputStream.readByteArray serverNonce.2
      if pq.1.length ≠ 8 then
        { result := false, core := core, emitted := [] }
      else
        let core := { core with m_pq := qFromBigEndian 8 pq.1 }
        let div1 := findDivider core.m_pq
        if div1 = 1 then
          { result := false, core := core, emitted := [] }
        else
          let div2 := core.m_pq / div1
          let core :=
            if div1 < div2 then { core with m_p := div1 % 2 ^ 32, m_q := div2 % 2 ^ 32 }
            else { core with m_p := div2 % 2 ^ 32, m_q := div1 % 2 ^ 32 }
          let fingersprints := inputStream.readVector64 pq.2
          if fingersprints.1.length ≠ 1 then
            { result := false, core := core, emitted := [] }
          else
            let core := { core with m_serverPublicFingersprint := fingersprints.1.headD 0 }
            if core.m_rsaKey.fingersprint ≠ core.m_serverPublicFingersprint then
              { result := false, core := core, emitted := [Signal.pqReceived] }
            else
              { result := true, core := core, emitted := [Signal.pqReceived] }

/-- The values that the five extraction operators of `answerPqAuthorization`
deliver on a payload, read one after the other. -/
structure ResPqFields where
  responsePqValue : Nat
  clientNonce : TLNumber128
  serverNonce : TLNumber128
  pq : QByteArray
  fingersprints : List Nat
deriving DecidableEq

/-- The fields of a payload as the stream delivers them, in the order in which
`answerPqAuthorization` extracts them. -/
def readResPq (inputStream : CTelegramStream) (payload : QByteArray) : ResPqFields :=
  let r1 := inputStream.readTLValue payload
  let r2 := inputStream.readNumber128 r1.2
  let r3 := inputStream.readNumber128 r2.2
  let r4 := inputStream.readByteArray r3.2
  let r5 := inputStream.readVector64 r4.2
  { responsePqValue := r1.1, clientNonce := r2.1, serverNonce := r3.1, pq := r4.1,
    fingersprints := r5.1 }

/-! ## Second request: `requestDhParameters` -/

/-- The call `Utils::randomBytes(dest, size)`: `size` bytes taken from the random
source `rnd`, starting at position `pos` of it. The random source is a
parameter: any sequence of bytes. -/
def randomBytes (rnd : Nat → Byte) (pos size : Nat) : QByteArray :=
  (List.range size).map (fun i => rnd (pos + i))

/-- What a call of `requestDhParameters` leaves behind: the fields of the
instance after the call, the serialized inner data, the block passed to
`Utils::rsa`, the result of `Utils::rsa`, and the buffer handed to
`sendPackage`. -/
structure DhRequest where
  core : CTelegramCore
  innerData : QByteArray
  plaintext : QByteArray
  encryptedPackage : QByteArray
  output : QByteArray
deriving DecidableEq

/-- The function `CTelegramCore::requestDhParameters()`, lines 181-239, up to the
call of `sendPackage`. `sha1` and `rsa` are `Utils::sha1` and `Utils::rsa`,
which are defined outside `CTelegramCore.cpp` and are parameters; `rnd` is the
random source. `QByteArray::resize` with a negative size gives the empty array,
as the truncated subtraction does. -/
def requestDhParameters (tl : TLValues) (sha1 : QByteArray → QByteArray)
    (rsa : QByteArray → SRsaKey → QByteArray) (rnd : Nat → Byte)
    (core : CTelegramCore) : DhRequest :=
  let core := { core with m_newNonce := ⟨randomBytes rnd 0 32, by simp [randomBytes]⟩ }
  let bigEndianNumber : QByteArray := fill 0 8
  let requestedEncryptedPackageLength : Nat := 255
  -- the block of lines 189-217
  let innerData : QByteArray := writeTLValue tl.PQInnerData
  let bigEndianNumber := qToBigEndian 8 core.m_pq bigEndianNumber
  let innerData := innerData ++ writeByteArray bigEndianNumber
  let bigEndianNumber := fill 0 4
  let bigEndianNumber := qToBigEndian 4 core.m_p bigEndianNumber
  let innerData := innerData ++ writeByteArray bigEndianNumber
  let bigEndianNumber := qToBigEndian 4 core.m_q bigEndianNumber
  let innerData := innerData ++ writeByteArray bigEndianNumber
  let innerData := innerData ++ writeNumber128 core.m_clientNonce
  let innerData := innerData ++ writeNumber128 core.m_serverNonce
  let innerData := innerData ++ writeNumber256 core.m_newNonce
  let sha := sha1 innerData
  let randomPadding :=
    randomBytes rnd 32 (requestedEncryptedPackageLength - (sha.length + innerData.length))
  let plaintext := sha ++ innerData ++ randomPadding
  let encryptedPackage := rsa plaintext core.m_rsaKey
  -- lines 219-238
  let output : QByteArray := writeTLValue tl.ReqDHParams
  let output := output ++ writeNumber128 core.m_clientNonce
  let output := output ++ writeNumber128 core.m_serverNonce
  let bigEndianNumber := fill 0 4
  let bigEndianNumber := qToBigEndian 4 core.m_p bigEndianNumber
  let output := output ++ writeByteArray bigEndianNumber
  let bigEndianNumber := qToBigEndian 4 core.m_q bigEndianNumber
  let output := output ++ writeByteArray bigEndianNumber
  let output := output ++ writeUInt64 core.m_serverPublicFingersprint
  let output := output ++ writeByteArray encryptedPackage
  { core := core, innerData := innerData, plaintext := plaintext,
    encryptedPackage := encryptedPackage, output := output }

/-! ## A stream that decodes as the specification says

The handshake theorems hold for every stream. To run the model on concrete
payloads, here is one stream: its decoders follow section 4.1 of the
specification and fail on input that is too short or carries the wrong vector
tag; where a decoder fails, the operator built from it leaves zeros in its
target and nothing unread. -/

/-- Modelled from the spec: the decoder of a 32-bit wire integer of
`CTelegramStream`, which is defined outside `CTelegramCore.cpp`. Little-endian,
bounds checked. -/
def decodeUInt32 (bs : QByteArray) : Option (Nat × QByteArray) :=
  if 4 ≤ bs.length then some (littleEndianValue (bs.take 4), bs.drop 4) else none

/-- Modelled from the spec: the decoder of a 64-bit wire integer of
`CTelegramStream`, which is defined outside `CTelegramCore.cpp`. Little-endian,
bounds checked. -/
def decodeUInt64 (bs : QByteArray) : Option (Nat × QByteArray) :=
  if 8 ≤ bs.length then some (littleEndianValue (bs.take 8), bs.drop 8) else none

/-- Modelled from the spec: the decoder of a 128-bit nonce of `CTelegramStream`,
which is defined outside `CTelegramCore.cpp`. Sixteen raw bytes, bounds checked. -/
def decodeNumber128 (bs : QByteArray) : Option (TLNumber128 × QByteArray) :=
  if h : 16 ≤ bs.length then
    some (⟨bs.take 16, by rw [List.length_take]; omega⟩, bs.drop 16)
  else none

/-- Modelled from the spec: the decoder of a byte string of `CTelegramStream`,
which is defined outside `CTelegramCore.cpp`. The inverse of `writeByteArray`;
it fails if the declared length exceeds the bytes that remain. -/
def decodeByteArray (bs : QByteArray) : Option (QByteArray × QByteArray) :=
  match bs with
  | [] => none
  | b :: rest =>
    if b.val < 254 then
      let len := b.val
      let pad := paddingTo4 (1 + len)
      if len + pad ≤ rest.length then some (rest.take len, rest.drop (len + pad)) else none
    else
      if 3 ≤ rest.length then
        let len := littleEndianValue (rest.take 3)
        let pad := paddingTo4 (4 + len)
        let rest := rest.drop 3
        if len + pad ≤ rest.length then some (rest.take len, rest.drop (len + pad)) else none
      else none

/-- The decoder of `count` 64-bit wire integers in sequence. -/
def decodeUInt64s : Nat → QByteArray → Option (List Nat × QByteArray)
  | 0, bs => some ([], bs)
  | count + 1, bs =>
    match decodeUInt64 bs with
    | none => none
    | some (v, rest) =>
      match decodeUInt64s count rest with
      | none => none
      | some (vs, rest) => some (v :: vs, rest)

/-- Modelled from the spec: the decoder of a vector of 64-bit values of
`CTelegramStream`, which is defined outside `CTelegramCore.cpp`. Section 4.1:
the vector tag (validated), a 32-bit count, then the elements. -/
def decodeVector64 (vectorTag : Nat) (bs : QByteArray) : Option (List Nat × QByteArray) :=
  match decodeUInt32 bs with
  | none => none
  | some (tag, rest) =>
    if tag ≠ vectorTag then none
    else
      match decodeUInt32 rest with
      | none => none
      | some (count, rest) => decodeUInt64s count rest

/-- The nonce of sixteen zero bytes. -/
def zeroNumber128 : TLNumber128 := ⟨List.replicate 16 0, by decide⟩

/-- The stream whose extraction operators are the decoders above. -/
def specStream (vectorTag : Nat) : CTelegramStream where
  readTLValue bs := (decodeUInt32 bs).getD (0, [])
  readNumber128 bs := (decodeNumber128 bs).getD (zeroNumber128, [])
  readByteArray bs := (decodeByteArray bs).getD ([], [])
  readVector64 bs := (decodeVector64 vectorTag bs).getD ([], [])
  readUInt64 bs := (decodeUInt64 bs).getD (0, [])
  readUInt32 bs := (decodeUInt32 bs).getD (0, [])
  bytesRemaining bs := bs.length
  readBytes count bs := (bs.take count, bs.drop count)

/-- Modelled from the spec: the encoder of a vector of 64-bit values of
`CTelegramStream`, which is defined outside `CTelegramCore.cpp`. Section 4.1:
the vector tag, a 32-bit count, then each element. -/
def writeVector64 (vectorTag : Nat) (vs : List Nat) : QByteArray :=
  writeUInt32 vectorTag ++ writeUInt32 vs.length ++ (vs.map writeUInt64).flatten

/-- The payload of a first response with the given fields, as the server side
would serialize it. -/
def resPqPayload (tag : Nat) (clientNonce serverNonce : TLNumber128) (pq : QByteArray)
    (vectorTag : Nat) (fingersprints : List Nat) : QByteArray :=
  writeTLValue tag ++ writeNumber128 clientNonce ++ writeNumber128 serverNonce ++
    writeByteArray pq ++ writeVector64 vectorTag fingersprints

/-! ## Data of the end-to-end scenario of section 8 -/

/-- A search for a divider by trial division, smallest first; 1 if there is none. -/
def trialDivider (n : Nat) : Nat :=
  (((List.range n).drop 2).find? (fun d => n % d = 0)).getD 1

/-- A stand-in for a digest function: twenty bytes. -/
def lengthDigest (bs : QByteArray) : QByteArray := List.replicate 20 (toByte bs.length)

/-- A stand-in for the RSA transform: the block reversed. -/
def reverseCipher (block : QByteArray) (_key : SRsaKey) : QByteArray := block.reverse

/-- A sequence of bytes standing for the random source. -/
def countingBytes (i : Nat) : Byte := toByte (7 * i + 3)

/-- Tag values for the scenario: those of the MTProto schema. -/
def mtprotoTags : TLValues :=
  { ReqPQ := 0x60469778, ResPQ := 0x05162463, PQInnerData := 0x83c95aec,
    ReqDHParams := 0xd712e4be }

/-- The vector tag for the scenario: that of the MTProto schema. -/
def mtprotoVectorTag : Nat := 0x1cb5c415

/-- The client nonce of the scenario: the bytes `0x00 .. 0x0F`. -/
def scenarioClientNonce : TLNumber128 := ⟨(List.range 16).map toByte, by decide⟩

/-- The server nonce of the scenario: the bytes `0x10 .. 0x1F`. -/
def scenarioServerNonce : TLNumber128 :=
  ⟨(List.range 16).map (fun i => toByte (16 + i)), by decide⟩

/-- The key of the scenario. -/
def scenarioKey : SRsaKey :=
  { key := [toByte 187], exp := [toByte 3], fingersprint := 0xc3b42b026ce86b21 }

/-- An instance as the constructor leaves it, with the scenario's nonce and key. -/
def scenarioCore : CTelegramCore :=
  { m_clientNonce := scenarioClientNonce, m_serverNonce := zeroNumber128,
    m_newNonce := ⟨List.replicate 32 0, by decide⟩, m_pq := 0, m_p := 0, m_q := 0,
    m_serverPublicFingersprint := 0, m_rsaKey := scenarioKey, m_tmpAesKey := [],
    m_tmpAesIv := [] }

/-- The well-formed first response of the scenario: composite `323 = 17 * 19` and
the fingerprint of the scenario's key. -/
def scenarioPayload : QByteArray :=
  resPqPayload mtprotoTags.ResPQ scenarioClientNonce scenarioServerNonce
    (bigEndianBytes 8 323) mtprotoVectorTag [scenarioKey.fingersprint]

/-- A first response that echoes a wrong client nonce (the server nonce of the
scenario) and is well-formed otherwise. -/
def wrongNoncePayload : QByteArray :=
  resPqPayload mtprotoTags.ResPQ scenarioServerNonce scenarioServerNonce
    (bigEndianBytes 8 323) mtprotoVectorTag [scenarioKey.fingersprint]

/-- A first response whose composite string has 4 bytes instead of 8 and that is
well-formed otherwise. -/
def shortPqPayload : QByteArray :=
  resPqPayload mtprotoTags.ResPQ scenarioClientNonce scenarioServerNonce
    (bigEndianBytes 4 323) mtprotoVectorTag [scenarioKey.fingersprint]

/-- A first response with two fingerprints that is well-formed otherwise. -/
def twoFingerprintsPayload : QByteArray :=
  resPqPayload mtprotoTags.ResPQ scenarioClientNonce scenarioServerNonce
    (bigEndianBytes 8 323) mtprotoVectorTag [scenarioKey.fingersprint, 5]

/-! ## Temporary key material: `initTmpAesKeys` -/

/-- The call `QByteArray::mid(pos, len)`: `len` bytes from position `pos` on. -/
def mid (data : QByteArray) (pos len : Nat) : QByteArray := (data.drop pos).take len

/-- The function `CTelegramCore::initTmpAesKeys()`, lines 275-289. `sha1` is
`Utils::sha1`, a parameter. -/
def initTmpAesKeys (sha1 : QByteArray → QByteArray) (core : CTelegramCore) : CTelegramCore :=
  let newNonceAndServerNonce : QByteArray := []
  let newNonceAndServerNonce := newNonceAndServerNonce ++ core.m_newNonce.data
  let newNonceAndServerNonce := newNonceAndServerNonce ++ core.m_serverNonce.data
  let serverNonceAndNewNonce : QByteArray := []
  let serverNonceAndNewNonce := serverNonceAndNewNonce ++ core.m_serverNonce.data
  let serverNonceAndNewNonce := serverNonceAndNewNonce ++ core.m_newNonce.data
  let newNonceAndNewNonce : QByteArray := []
  let newNonceAndNewNonce := newNonceAndNewNonce ++ core.m_newNonce.data
  let newNonceAndNewNonce := newNonceAndNewNonce ++ core.m_newNonce.data
  { core with
    m_tmpAesKey := sha1 newNonceAndServerNonce ++ mid (sha1 serverNonceAndNewNonce) 0 12
    m_tmpAesIv := mid (sha1 serverNonceAndNewNonce) 12 8 ++ sha1 newNonceAndNewNonce
      ++ core.m_newNonce.data.take 4 }

/-! ## The message envelope: `sendPackage` and `whenReadyRead` -/

/-- The function `CTelegramCore::sendPackage(const QByteArray &buffer)`, lines
291-302: the package handed to `m_transport->sendPackage`.
`formatClientTimeStamp` is declared outside `CTelegramCore.cpp` and is a
parameter, as is the clock value `currentMSecsSinceEpoch`. The cast
`quint32(buffer.length())` keeps the low 32 bits. -/
def sendPackage (formatClientTimeStamp : Int → Nat) (currentMSecsSinceEpoch : Int)
    (buffer : QByteArray) : QByteArray :=
  let output : QByteArray := writeUInt64 0
  let output := output ++ writeUInt64 (formatClientTimeStamp currentMSecsSinceEpoch)
  let output := output ++ writeUInt32 (buffer.length % 2 ^ 32)
  output ++ buffer

/-- What a call of `whenReadyRead` leaves behind: the function-static counter
`pn`, the fields of the instance, the payload extracted at line 262 (if the
length check let the call get there), and the call of `answerPqAuthorization`
(if one was made). -/
structure ReadyRead where
  pn : Nat
  core : CTelegramCore
  payload : Option QByteArray
  answer : Option PqAnswer
deriving DecidableEq

/-- The function `CTelegramCore::whenReadyRead()`, lines 241-273. `incoming` is
what `m_transport->getPackage()` returns. `pn` is the variable
`static int pn` of the function: one variable for the whole program, whatever
instance the function is called on, so it is passed in and out next to the
fields of the instance. (The counter is a natural number; the `int` would
overflow after `2^31 - 1` packages.) -/
def whenReadyRead (tl : TLValues) (inputStream : CTelegramStream) (findDivider : Nat → Nat)
    (pn : Nat) (core : CTelegramCore) (incoming : QByteArray) : ReadyRead :=
  let auth := inputStream.readUInt64 incoming
  let timeStamp := inputStream.readUInt64 auth.2
  let length := inputStream.readUInt32 timeStamp.2
  if inputStream.bytesRemaining length.2 ≠ length.1 then
    { pn := pn, core := core, payload := none, answer := none }
  else
    let payload := inputStream.readBytes length.1 length.2
    if pn = 0 then
      let answer := answerPqAuthorization tl inputStream findDivider core payload.1
      { pn := pn + 1, core := answer.core, payload := some payload.1, answer := some answer }
    else
      { pn := pn + 1, core := core, payload := some payload.1, answer := none }

/-- The envelope header of a package as the stream delivers it to
`whenReadyRead`: the three integers read, and the bytes left unread after
them. -/
structure EnvelopeHeader where
  auth : Nat
  timeStamp : Nat
  length : Nat
  unread : QByteArray
deriving DecidableEq

/-- The three reads of `whenReadyRead`, one after the other. -/
def readEnvelopeHeader (inputStream : CTelegramStream) (incoming : QByteArray) :
    EnvelopeHeader :=
  let r1 := inputStream.readUInt64 incoming
  let r2 := inputStream.readUInt64 r1.2
  let r3 := inputStream.readUInt32 r2.2
  { auth := r1.1, timeStamp := r2.1, length := r3.1, unread := r3.2 }

/-! ## Further data of the scenario -/

/-- A stand-in for `formatClientTimeStamp`: the encoder of the timestamp codec. -/
def plainClientTimeStamp (timeInMs : Int) : Nat := formatTimeStamp timeInMs

/-- A first response with a single fingerprint that is not the one of the
scenario's key, well-formed otherwise. -/
def wrongFingerprintPayload : QByteArray :=
  resPqPayload mtprotoTags.ResPQ scenarioClientNonce scenarioServerNonce
    (bigEndianBytes 8 323) mtprotoVectorTag [5]

/-- A first response whose composite is `2^33`, well-formed otherwise. -/
def wideFactorPayload : QByteArray :=
  resPqPayload mtprotoTags.ResPQ scenarioClientNonce scenarioServerNonce
    (bigEndianBytes 8 (2 ^ 33)) mtprotoVectorTag [scenarioKey.fingersprint]

/-- The well-formed first response of the scenario in its envelope. -/
def scenarioPackage : QByteArray := sendPackage plainClientTimeStamp 1700000000123 scenarioPayload

/-- A package whose header declares 5 payload bytes and that carries 3. -/
def corruptedPackage : QByteArray :=
  writeUInt64 0 ++ writeUInt64 (formatTimeStamp 1700000000123) ++ writeUInt32 5
    ++ [toByte 1, toByte 2, toByte 3]

/-- A second instance, with a client nonce of its own: the bytes `0x20 .. 0x2F`. -/
def secondCore : CTelegramCore :=
  { scenarioCore with
    m_clientNonce := ⟨(List.range 16).map (fun i => toByte (32 + i)), by decide⟩ }

/-- The well-formed first response to the second instance, in its envelope. -/
def secondPackage : QByteArray :=
  sendPackage plainClientTimeStamp 1700000000456
    (resPqPayload mtprotoTags.ResPQ secondCore.m_clientNonce scenarioServerNonce
      (bigEndianBytes 8 323) mtprotoVectorTag [scenarioKey.fingersprint])

/-! ### Facts about the timestamp codec -/

theorem maxMsecValue_eq : maxMsecValue = 4294967295 := by decide

theorem roundDiv_eq_round (a b : Nat) (hb : 0 < b) :
    ((roundDiv a b : Nat) : Int) = round ((a : ℚ) / (b : ℚ)) := by
  have hb' : (b : ℚ) ≠ 0 := by exact_mod_cast hb.ne'
  have h : (a : ℚ) / (b : ℚ) + 1 / 2 = (((2 * a + b : Nat) : Int) : ℚ) / ((2 * b : Nat) : ℚ) := by
    push_cast
    field_simp
    ring
  rw [round_eq, h, Rat.floor_intCast_div_natCast, roundDiv]
  norm_cast

/-- For a time below `1000 * 2^32` ms the encoder does not wrap: the result is
`secs * 2^32 + 4294967 * ms`. -/
theorem formatTimeStamp_of_lt (t : Int) (h0 : 0 ≤ t) (h1 : t < 1000 * 2 ^ 32) :
    formatTimeStamp t = (t / 1000).toNat * 2 ^ 32 + 4294967 * (t % 1000).toNat := by
  simp only [formatTimeStamp, toQuint64]
  rw [Int.tdiv_eq_ediv h0 (by norm_num), Int.tmod_eq_emod h0 (by norm_num), maxMsecValue_eq,
    Nat.shiftLeft_eq]
  have hs0 : 0 ≤ t / 1000 := by omega
  have hs1 : t / 1000 < 2 ^ 32 := by omega
  have hr0 : 0 ≤ t % 1000 := by omega
  have hr1 : t % 1000 < 1000 := by omega
  have e1 : (t / 1000 % 2 ^ 64).toNat = (t / 1000).toNat := by
    rw [Int.emod_eq_of_lt hs0 (by omega)]
  have e2 : (t % 1000 % 2 ^ 64).toNat = (t % 1000).toNat := by
    rw [Int.emod_eq_of_lt hr0 (by omega)]
  rw [e1, e2]
  have hs : (t / 1000).toNat < 2 ^ 32 := by omega
  have hr : (t % 1000).toNat < 1000 := by omega
  generalize (t / 1000).toNat = s at hs ⊢
  generalize (t % 1000).toNat = r at hr ⊢
  norm_num at hs ⊢
  omega

/-- Masking with `maxMsecValue` keeps the low 32 bits. -/
theorem and_maxMsecValue (x : Nat) : x &&& maxMsecValue = x % 2 ^ 32 := by
  have h : maxMsecValue = 2 ^ 32 - 1 := by decide
  rw [h]
  exact Nat.and_pow_two_sub_one_eq_mod x 32

/-- The scaling step of the decoder on `4294967 * r` units: one below `10 * r`. -/
theorem units_to_tenths (r : Nat) (h0 : 0 < r) (hr : r < 1000) :
    4294967 * r * 10000 / 4294967295 = 10 * r - 1 := by
  apply Nat.div_eq_of_lt_le <;> omega

/-- The decoder on a value `s * 2^32 + 4294967 * r` gives back `s * 1000 + r`. -/
theorem timeStampToMSecsSinceEpoch_units (s r : Nat) (hs : s < 2 ^ 32) (hr : r < 1000) :
    timeStampToMSecsSinceEpoch (s * 2 ^ 32 + 4294967 * r) = s * 1000 + r := by
  simp only [timeStampToMSecsSinceEpoch]
  rw [Nat.shiftRight_eq_div_pow, and_maxMsecValue, maxMsecValue_eq]
  norm_num at hs ⊢
  have hhi : (s * 4294967296 + 4294967 * r) / 4294967296 = s := by omega
  have hlo : (s * 4294967296 + 4294967 * r) % 4294967296 = 4294967 * r := by omega
  rw [hhi, hlo, Nat.mod_eq_of_lt (by omega : 4294967 * r * 10000 < 18446744073709551616)]
  rcases Nat.eq_zero_or_pos r with rfl | hpos
  · simp
    omega
  · rw [units_to_tenths r hpos hr]
    have h9 : 5 ≤ (10 * r - 1) % 10 := by omega
    rw [if_pos h9, Nat.mod_eq_of_lt (by omega : 10 * r - 1 + 5 < 18446744073709551616)]
    have hq : (10 * r - 1 + 5) / 10 = r := by omega
    rw [hq, Nat.mod_eq_of_lt (by omega : s * 1000 + r < 18446744073709551616)]

/-- The round trip is exact below `1000 * 2^32` ms. -/
theorem timeStamp_roundtrip_exact (t : Int) (h0 : 0 ≤ t) (h1 : t < 1000 * 2 ^ 32) :
    (timeStampToMSecsSinceEpoch (formatTimeStamp t) : Int) = t := by
  rw [formatTimeStamp_of_lt t h0 h1,
    timeStampToMSecsSinceEpoch_units _ _ (by omega) (by omega)]
  push_cast
  rw [Int.toNat_of_nonneg (by omega), Int.toNat_of_nonneg (by omega)]
  omega


/-! ### The claims about the timestamp codec -/

/-- C1, amended: for every millisecond value `t` with `0 ≤ t < 1000 * 2^32` (the
whole seconds fit the 32-bit seconds field), decoding the encoded timestamp
gives a value within 1 of `t`, the 64-bit machine arithmetic being part of
both functions. -/
theorem timeStamp_roundtrip_within_one (t : Int) (h0 : 0 ≤ t) (h1 : t < 1000 * 2 ^ 32) :
    |(timeStampToMSecsSinceEpoch (formatTimeStamp t) : Int) - t| ≤ 1 := by
  rw [timeStamp_roundtrip_exact t h0 h1]
  simp

/-- The amended C1 at `t = 1700000000123`. -/
theorem timeStamp_roundtrip_within_one_witness :
    (0 : Int) ≤ 1700000000123 ∧ (1700000000123 : Int) < 1000 * 2 ^ 32 ∧
      |(timeStampToMSecsSinceEpoch (formatTimeStamp 1700000000123) : Int) - 1700000000123| ≤ 1 :=
  ⟨by decide, by decide, timeStamp_roundtrip_within_one 1700000000123 (by decide) (by decide)⟩

/-- C1 as stated fails at `t = 1000 * 2^32 = 4294967296000`, a non-negative
`qint64`: the seconds no longer fit 32 bits, the shift wraps, and the round
trip gives 0. -/
theorem timeStamp_roundtrip_counterexample :
    (0 : Int) ≤ 4294967296000 ∧ (4294967296000 : Int) < 2 ^ 63 ∧
      formatTimeStamp 4294967296000 = 0 ∧
      timeStampToMSecsSinceEpoch (formatTimeStamp 4294967296000) = 0 ∧
      ¬ |(timeStampToMSecsSinceEpoch (formatTimeStamp 4294967296000) : Int) - 4294967296000| ≤ 1 := by
  have h : formatTimeStamp 4294967296000 = 0 := by decide
  refine ⟨by decide, by decide, h, ?_, ?_⟩
  · rw [h]; decide
  · rw [h]; decide

/-- C2, amended: for every `t ≥ 0` whose whole-second part fits in 32 bits,
`formatTimeStamp t` has `t div 1000` in its high 32 bits and
`(t mod 1000) * ((2^32 - 1) div 1000)`, that is `(t mod 1000) * 4294967`, in
its low 32 bits: the scale factor is truncated before the multiplication and
nothing is rounded. -/
theorem formatTimeStamp_fields (t : Int) (h0 : 0 ≤ t) (h1 : t / 1000 < 2 ^ 32) :
    ((formatTimeStamp t / 2 ^ 32 : Nat) : Int) = t / 1000 ∧
      ((formatTimeStamp t % 2 ^ 32 : Nat) : Int) = (t % 1000) * ((2 ^ 32 - 1) / 1000) := by
  have ht : t < 1000 * 2 ^ 32 := by omega
  rw [formatTimeStamp_of_lt t h0 ht]
  have hs : (t / 1000).toNat < 2 ^ 32 := by omega
  have hr : (t % 1000).toNat < 1000 := by omega
  have es : ((t / 1000).toNat : Int) = t / 1000 := Int.toNat_of_nonneg (by omega)
  have er : ((t % 1000).toNat : Int) = t % 1000 := Int.toNat_of_nonneg (by omega)
  rw [← es, ← er]
  generalize (t / 1000).toNat = s at hs ⊢
  generalize (t % 1000).toNat = r at hr ⊢
  norm_num at hs ⊢
  constructor
  · norm_cast
    omega
  · norm_cast
    omega

/-- The amended C2 at `t = 1700000000123`. -/
theorem formatTimeStamp_fields_witness :
    (0 : Int) ≤ 1700000000123 ∧ (1700000000123 : Int) / 1000 < 2 ^ 32 ∧
      ((formatTimeStamp 1700000000123 / 2 ^ 32 : Nat) : Int) = 1700000000123 / 1000 ∧
      ((formatTimeStamp 1700000000123 % 2 ^ 32 : Nat) : Int)
        = (1700000000123 % 1000) * ((2 ^ 32 - 1) / 1000) :=
  ⟨by decide, by decide, formatTimeStamp_fields 1700000000123 (by decide) (by decide)⟩

/-- C2 as stated fails at `t = 2`: the low 32 bits are `2 * 4294967 = 8589934`,
while `round(2 * (2^32 - 1) / 1000) = round(8589934.59) = 8589935`. -/
theorem formatTimeStamp_round_counterexample :
    (0 : Int) ≤ 2 ∧ (2 : Int) / 1000 < 2 ^ 32 ∧
      formatTimeStamp 2 % 2 ^ 32 = 8589934 ∧
      round ((((2 : Int) % 1000 : Int) : ℚ) * (2 ^ 32 - 1) / 1000) = 8589935 ∧
      specSubSecondUnits 2 = 8589935 ∧
      formatTimeStamp 2 % 2 ^ 32 ≠ specSubSecondUnits 2 := by
  refine ⟨by decide, by decide, by decide, ?_, by decide, by decide⟩
  have h := roundDiv_eq_round (2 * (2 ^ 32 - 1)) 1000 (by decide)
  have e : roundDiv (2 * (2 ^ 32 - 1)) 1000 = 8589935 := by decide
  have e2 : (((2 : Int) % 1000 : Int) : ℚ) * (2 ^ 32 - 1) / 1000
      = ((2 * (2 ^ 32 - 1) : Nat) : ℚ) / ((1000 : Nat) : ℚ) := by norm_num
  rw [e2, ← h, e]
  rfl

/-- C3: for every 64-bit value `ts`, `timeStampToMSecsSinceEpoch ts` is
`secs * 1000 + rounded_ms`, where `secs` is the high 32 bits of `ts`, `units`
the low 32 bits, and `rounded_ms` is `floor(units * 10000 / (2^32 - 1))`
rounded half-up at its last decimal digit and then divided by 10; no step of
the machine computation wraps. -/
theorem timeStampToMSecsSinceEpoch_eq_spec (ts : Nat) (h : ts < 2 ^ 64) :
    timeStampToMSecsSinceEpoch ts = specDecodeTimeStamp ts := by
  simp only [timeStampToMSecsSinceEpoch, specDecodeTimeStamp, roundHalfUpLastDigit]
  rw [Nat.shiftRight_eq_div_pow, and_maxMsecValue, maxMsecValue_eq]
  have hs : ts / 2 ^ 32 < 2 ^ 32 := by omega
  have hu : ts % 2 ^ 32 < 2 ^ 32 := by omega
  generalize ts / 2 ^ 32 = s at hs ⊢
  generalize ts % 2 ^ 32 = u at hu ⊢
  norm_num at hs hu ⊢
  rw [Nat.mod_eq_of_lt (by omega : u * 10000 < 18446744073709551616)]
  have hm : u * 10000 / 4294967295 ≤ 10000 := by omega
  generalize u * 10000 / 4294967295 = m at hm ⊢
  split
  · rw [Nat.mod_eq_of_lt (by omega : m + 5 < 18446744073709551616),
      Nat.mod_eq_of_lt (by omega : s * 1000 + (m + 5) / 10 < 18446744073709551616)]
  · rw [Nat.mod_eq_of_lt (by omega : s * 1000 + m / 10 < 18446744073709551616)]
    omega

/-- C3 at the largest 64-bit value. -/
theorem timeStampToMSecsSinceEpoch_eq_spec_witness :
    18446744073709551615 < 2 ^ 64 ∧
      timeStampToMSecsSinceEpoch 18446744073709551615
        = specDecodeTimeStamp 18446744073709551615 :=
  ⟨by decide, timeStampToMSecsSinceEpoch_eq_spec 18446744073709551615 (by decide)⟩

/-! ### Facts about `answerPqAuthorization` -/

/-- A divisor of a product of two primes that is neither 1 nor the product is
one of the two primes. -/
theorem divisor_of_semiprime (p q d : Nat) (hp : p.Prime) (hq : q.Prime)
    (hd : d ∣ p * q) (h1 : d ≠ 1) (hn : d ≠ p * q) : d = p ∨ d = q := by
  rcases (Nat.dvd_mul).1 hd with ⟨a, b, ha, hb, hab⟩
  rcases (Nat.dvd_prime hp).1 ha with rfl | rfl <;>
    rcases (Nat.dvd_prime hq).1 hb with rfl | rfl
  · exact absurd hab.symm (by simpa using h1)
  · right; simpa using hab.symm
  · left; simpa using hab.symm
  · exact absurd hab.symm hn

/-! ### The claims about `answerPqAuthorization` -/

/-- C4: for every response payload whose echoed client nonce differs from the
stored `m_clientNonce`, `answerPqAuthorization` returns false, whatever the
other fields contain, and every stored field (server nonce, composite, p, q,
server fingerprint among them) is the same after the call as before; no signal
is emitted. -/
theorem answerPqAuthorization_nonce_mismatch (tl : TLValues) (inputStream : CTelegramStream)
    (findDivider : Nat → Nat) (core : CTelegramCore) (payload : QByteArray)
    (h : (readResPq inputStream payload).clientNonce ≠ core.m_clientNonce) :
    (answerPqAuthorization tl inputStream findDivider core payload).result = false ∧
      (answerPqAuthorization tl inputStream findDivider core payload).core = core ∧
      (answerPqAuthorization tl inputStream findDivider core payload).emitted = [] := by
  simp only [readResPq] at h
  simp only [answerPqAuthorization]
  split_ifs <;> simp_all

/-- C6: for every response whose fingerprint vector does not contain exactly one
entry, `answerPqAuthorization` returns false; in particular so for a response
that is otherwise well-formed (expected tag, matching client nonce, 8-byte
factorable composite). -/
theorem answerPqAuthorization_fingerprint_count (tl : TLValues)
    (inputStream : CTelegramStream) (findDivider : Nat → Nat) (core : CTelegramCore)
    (payload : QByteArray)
    (h : (readResPq inputStream payload).fingersprints.length ≠ 1) :
    (answerPqAuthorization tl inputStream findDivider core payload).result = false := by
  simp only [readResPq] at h
  simp only [answerPqAuthorization]
  split_ifs <;> simp_all

/-- C7: for every composite `n = p * q` with `p`, `q` primes below `2^32`, if the
divider search returns a nontrivial divisor of `n` (one that divides `n` and
is neither 1 nor `n`), then a response that carries `n` as its 8-byte
composite, with the expected tag and the matching client nonce, leaves
`m_p = min p q` and `m_q = max p q` stored: `m_p ≤ m_q` and `m_p * m_q = n`.
(That the primes are odd and distinct is not needed.) -/
theorem answerPqAuthorization_factors (tl : TLValues) (inputStream : CTelegramStream)
    (findDivider : Nat → Nat) (core : CTelegramCore) (payload : QByteArray) (p q : Nat)
    (hp : p.Prime) (hq : q.Prime) (hp32 : p < 2 ^ 32) (hq32 : q < 2 ^ 32)
    (htag : (readResPq inputStream payload).responsePqValue = tl.ResPQ)
    (hnonce : (readResPq inputStream payload).clientNonce = core.m_clientNonce)
    (hlen : (readResPq inputStream payload).pq.length = 8)
    (hpq : qFromBigEndian 8 (readResPq inputStream payload).pq = p * q)
    (hdvd : findDivider (p * q) ∣ p * q)
    (hne1 : findDivider (p * q) ≠ 1) (hnen : findDivider (p * q) ≠ p * q) :
    (answerPqAuthorization tl inputStream findDivider core payload).core.m_p = min p q ∧
      (answerPqAuthorization tl inputStream findDivider core payload).core.m_q = max p q ∧
      (answerPqAuthorization tl inputStream findDivider core payload).core.m_p
        ≤ (answerPqAuthorization tl inputStream findDivider core payload).core.m_q ∧
      (answerPqAuthorization tl inputStream findDivider core payload).core.m_p
        * (answerPqAuthorization tl inputStream findDivider core payload).core.m_q = p * q := by
  simp only [readResPq] at htag hnonce hlen hpq
  have hp0 : 0 < p := hp.pos
  have hq0 : 0 < q := hq.pos
  have key : ∀ a b : Nat, a = min p q → b = max p q → a ≤ b ∧ a * b = p * q := by
    intro a b ha hb
    subst ha hb
    rcases Nat.le_total p q with hle | hle
    · rw [Nat.min_eq_left hle, Nat.max_eq_right hle]
      exact ⟨hle, rfl⟩
    · rw [Nat.min_eq_right hle, Nat.max_eq_left hle]
      exact ⟨hle, Nat.mul_comm q p⟩
  suffices hmain :
      (answerPqAuthorization tl inputStream findDivider core payload).core.m_p = min p q ∧
      (answerPqAuthorization tl inputStream findDivider core payload).core.m_q = max p q from
    ⟨hmain.1, hmain.2, key _ _ hmain.1 hmain.2⟩
  simp only [answerPqAuthorization, htag, hnonce, hlen, hpq, hne1, ne_eq, not_true_eq_false,
    if_false]
  rcases divisor_of_semiprime p q _ hp hq hdvd hne1 hnen with hd | hd
  · rw [hd, Nat.mul_div_cancel_left q hp0]
    split_ifs <;> simp_all <;> omega
  · rw [hd, Nat.mul_div_cancel p hq0]
    split_ifs <;> simp_all <;> omega

/-- C4 at the response of the scenario with a wrong echoed nonce. -/
theorem answerPqAuthorization_nonce_mismatch_witness :
    (readResPq (specStream mtprotoVectorTag) wrongNoncePayload).clientNonce
        ≠ scenarioCore.m_clientNonce ∧
      ((answerPqAuthorization mtprotoTags (specStream mtprotoVectorTag) trialDivider
          scenarioCore wrongNoncePayload).result = false ∧
        (answerPqAuthorization mtprotoTags (specStream mtprotoVectorTag) trialDivider
          scenarioCore wrongNoncePayload).core = scenarioCore ∧
        (answerPqAuthorization mtprotoTags (specStream mtprotoVectorTag) trialDivider
          scenarioCore wrongNoncePayload).emitted = []) :=
  ⟨by decide, answerPqAuthorization_nonce_mismatch mtprotoTags (specStream mtprotoVectorTag)
    trialDivider scenarioCore wrongNoncePayload (by decide)⟩

/-- C5 as stated fails. A response with the expected tag and the matching client
nonce whose composite string has 4 bytes is rejected after `m_serverNonce` was
overwritten; a response with two fingerprints is rejected after `m_serverNonce`,
`m_pq`, `m_p` and `m_q` were overwritten. -/
theorem answerPqAuthorization_partial_writes_counterexample :
    ((answerPqAuthorization mtprotoTags (specStream mtprotoVectorTag) trialDivider
          scenarioCore shortPqPayload).result = false ∧
      (answerPqAuthorization mtprotoTags (specStream mtprotoVectorTag) trialDivider
          scenarioCore shortPqPayload).core.m_serverNonce = scenarioServerNonce ∧
      scenarioCore.m_serverNonce ≠ scenarioServerNonce) ∧
    ((answerPqAuthorization mtprotoTags (specStream mtprotoVectorTag) trialDivider
          scenarioCore twoFingerprintsPayload).result = false ∧
      (answerPqAuthorization mtprotoTags (specStream mtprotoVectorTag) trialDivider
          scenarioCore twoFingerprintsPayload).core.m_pq = 323 ∧
      (answerPqAuthorization mtprotoTags (specStream mtprotoVectorTag) trialDivider
          scenarioCore twoFingerprintsPayload).core.m_p = 17 ∧
      (answerPqAuthorization mtprotoTags (specStream mtprotoVectorTag) trialDivider
          scenarioCore twoFingerprintsPayload).core.m_q = 19 ∧
      scenarioCore.m_pq = 0 ∧ scenarioCore.m_p = 0 ∧ scenarioCore.m_q = 0) := by
  decide

/-- C5, amended: whenever `answerPqAuthorization` returns false, the stored state
is determined by the check that failed. At the tag check or the client-nonce
check nothing has changed. At a later check the fields assigned before it
have their new values and all others their old ones: `m_serverNonce` when the
composite string is not 8 bytes long; also `m_pq` when the divider search
returns 1; also `m_p` and `m_q` when the fingerprint vector does not have
exactly one entry; also `m_serverPublicFingersprint` when the fingerprint
differs from the key's. -/
theorem answerPqAuthorization_rejected_state (tl : TLValues) (inputStream : CTelegramStream)
    (findDivider : Nat → Nat) (core : CTelegramCore) (payload : QByteArray)
    (hrej : (answerPqAuthorization tl inputStream findDivider core payload).result = false) :
    let f := readResPq inputStream payload
    let after := (answerPqAuthorization tl inputStream findDivider core payload).core
    let n := qFromBigEndian 8 f.pq
    let d := findDivider n
    let withNonce : CTelegramCore := { core with m_serverNonce := f.serverNonce }
    let withPq : CTelegramCore := { withNonce with m_pq := n }
    let withFactors : CTelegramCore :=
      if d < n / d then { withPq with m_p := d % 2 ^ 32, m_q := n / d % 2 ^ 32 }
      else { withPq with m_p := n / d % 2 ^ 32, m_q := d % 2 ^ 32 }
    let withFingerprint : CTelegramCore :=
      { withFactors with m_serverPublicFingersprint := f.fingersprints.headD 0 }
    ((f.responsePqValue ≠ tl.ResPQ ∨ f.clientNonce ≠ core.m_clientNonce) ∧ after = core) ∨
    (f.responsePqValue = tl.ResPQ ∧ f.clientNonce = core.m_clientNonce ∧
      f.pq.length ≠ 8 ∧ after = withNonce) ∨
    (f.responsePqValue = tl.ResPQ ∧ f.clientNonce = core.m_clientNonce ∧
      f.pq.length = 8 ∧ d = 1 ∧ after = withPq) ∨
    (f.responsePqValue = tl.ResPQ ∧ f.clientNonce = core.m_clientNonce ∧
      f.pq.length = 8 ∧ d ≠ 1 ∧ f.fingersprints.length ≠ 1 ∧ after = withFactors) ∨
    (f.responsePqValue = tl.ResPQ ∧ f.clientNonce = core.m_clientNonce ∧
      f.pq.length = 8 ∧ d ≠ 1 ∧ f.fingersprints.length = 1 ∧
      core.m_rsaKey.fingersprint ≠ f.fingersprints.headD 0 ∧ after = withFingerprint) := by
  intro f after n d withNonce withPq withFactors withFingerprint
  by_cases h1 : (inputStream.readTLValue payload).1 = tl.ResPQ
  case neg => exact Or.inl ⟨Or.inl h1, by simp [after, answerPqAuthorization, h1]⟩
  by_cases h2 : f.clientNonce = core.m_clientNonce
  case neg =>
    have h2' := h2
    simp only [f, readResPq] at h2'
    exact Or.inl ⟨Or.inr h2, by simp [after, answerPqAuthorization, h1, h2']⟩
  have h2' := h2
  simp only [f, readResPq] at h2'
  refine Or.inr ?_
  by_cases h3 : f.pq.length = 8
  case neg =>
    have h3' := h3
    simp only [f, readResPq] at h3'
    refine Or.inl ⟨h1, h2, h3, ?_⟩
    simp [after, withNonce, f, readResPq, answerPqAuthorization, h1, h2', h3']
  have h3' := h3
  simp only [f, readResPq] at h3'
  refine Or.inr ?_
  by_cases h4 : d = 1
  case pos =>
    have h4' := h4
    simp only [d, n, f, readResPq] at h4'
    refine Or.inl ⟨h1, h2, h3, h4, ?_⟩
    simp [after, withPq, withNonce, n, f, readResPq, answerPqAuthorization, h1, h2', h3', h4']
  have h4' := h4
  simp only [d, n, f, readResPq] at h4'
  refine Or.inr ?_
  by_cases h5 : f.fingersprints.length = 1
  case neg =>
    have h5' := h5
    simp only [f, readResPq] at h5'
    refine Or.inl ⟨h1, h2, h3, h4, h5, ?_⟩
    simp only [after, withFactors, withPq, withNonce, d, n, f, readResPq,
      answerPqAuthorization, h1, h2', h3', h4', h5', ne_eq, not_true_eq_false, if_false,
      not_false_eq_true, if_true]
  have h5' := h5
  simp only [f, readResPq] at h5'
  refine Or.inr ⟨h1, h2, h3, h4, h5, ?_⟩
  by_cases h6 : core.m_rsaKey.fingersprint = f.fingersprints.headD 0
  case pos =>
    exfalso
    have h6' := h6
    simp only [f, readResPq] at h6'
    simp only [answerPqAuthorization, h1, h2', h3', h4', h5', ne_eq, not_true_eq_false,
      if_false] at hrej
    split_ifs at hrej
  have h6' := h6
  simp only [f, readResPq] at h6'
  refine ⟨h6, ?_⟩
  simp only [after, withFingerprint, withFactors, withPq, withNonce, d, n, f, readResPq,
    answerPqAuthorization, h1, h2', h3', h4', h5', ne_eq, not_true_eq_false, if_false]
  split_ifs <;> simp_all

/-- The amended C5 at the response whose composite string has 4 bytes. -/
theorem answerPqAuthorization_rejected_state_witness :
    (answerPqAuthorization mtprotoTags (specStream mtprotoVectorTag) trialDivider
        scenarioCore shortPqPayload).result = false ∧
    (let f := readResPq (specStream mtprotoVectorTag) shortPqPayload
    let after := (answerPqAuthorization mtprotoTags (specStream mtprotoVectorTag) trialDivider
        scenarioCore shortPqPayload).core
    let n := qFromBigEndian 8 f.pq
    let d := trialDivider n
    let withNonce : CTelegramCore := { scenarioCore with m_serverNonce := f.serverNonce }
    let withPq : CTelegramCore := { withNonce with m_pq := n }
    let withFactors : CTelegramCore :=
      if d < n / d then { withPq with m_p := d % 2 ^ 32, m_q := n / d % 2 ^ 32 }
      else { withPq with m_p := n / d % 2 ^ 32, m_q := d % 2 ^ 32 }
    let withFingerprint : CTelegramCore :=
      { withFactors with m_serverPublicFingersprint := f.fingersprints.headD 0 }
    ((f.responsePqValue ≠ mtprotoTags.ResPQ ∨ f.clientNonce ≠ scenarioCore.m_clientNonce) ∧
      after = scenarioCore) ∨
    (f.responsePqValue = mtprotoTags.ResPQ ∧ f.clientNonce = scenarioCore.m_clientNonce ∧
      f.pq.length ≠ 8 ∧ after = withNonce) ∨
    (f.responsePqValue = mtprotoTags.ResPQ ∧ f.clientNonce = scenarioCore.m_clientNonce ∧
      f.pq.length = 8 ∧ d = 1 ∧ after = withPq) ∨
    (f.responsePqValue = mtprotoTags.ResPQ ∧ f.clientNonce = scenarioCore.m_clientNonce ∧
      f.pq.length = 8 ∧ d ≠ 1 ∧ f.fingersprints.length ≠ 1 ∧ after = withFactors) ∨
    (f.responsePqValue = mtprotoTags.ResPQ ∧ f.clientNonce = scenarioCore.m_clientNonce ∧
      f.pq.length = 8 ∧ d ≠ 1 ∧ f.fingersprints.length = 1 ∧
      scenarioCore.m_rsaKey.fingersprint ≠ f.fingersprints.headD 0 ∧
      after = withFingerprint)) :=
  ⟨by decide, answerPqAuthorization_rejected_state mtprotoTags (specStream mtprotoVectorTag)
    trialDivider scenarioCore shortPqPayload (by decide)⟩

/-- C6 at the response of the scenario with a second fingerprint added: the tag is
the expected one, the client nonce matches, the composite has 8 bytes and a
divider is found, and the response is rejected. -/
theorem answerPqAuthorization_fingerprint_count_witness :
    ((readResPq (specStream mtprotoVectorTag) twoFingerprintsPayload).responsePqValue
        = mtprotoTags.ResPQ ∧
      (readResPq (specStream mtprotoVectorTag) twoFingerprintsPayload).clientNonce
        = scenarioCore.m_clientNonce ∧
      (readResPq (specStream mtprotoVectorTag) twoFingerprintsPayload).pq.length = 8 ∧
      trialDivider (qFromBigEndian 8
        (readResPq (specStream mtprotoVectorTag) twoFingerprintsPayload).pq) = 17 ∧
      (readResPq (specStream mtprotoVectorTag) twoFingerprintsPayload).fingersprints.length
        ≠ 1) ∧
    (answerPqAuthorization mtprotoTags (specStream mtprotoVectorTag) trialDivider
        scenarioCore twoFingerprintsPayload).result = false :=
  ⟨by decide, answerPqAuthorization_fingerprint_count mtprotoTags
    (specStream mtprotoVectorTag) trialDivider scenarioCore twoFingerprintsPayload (by decide)⟩

/-- C7 at the scenario of the specification: `323 = 17 * 19`. -/
theorem answerPqAuthorization_factors_witness :
    (Nat.Prime 17 ∧ Nat.Prime 19 ∧ 17 < 2 ^ 32 ∧ 19 < 2 ^ 32 ∧
      qFromBigEndian 8 (readResPq (specStream mtprotoVectorTag) scenarioPayload).pq = 17 * 19 ∧
      trialDivider (17 * 19) ∣ 17 * 19 ∧ trialDivider (17 * 19) ≠ 1 ∧
      trialDivider (17 * 19) ≠ 17 * 19) ∧
    ((answerPqAuthorization mtprotoTags (specStream mtprotoVectorTag) trialDivider
        scenarioCore scenarioPayload).core.m_p = min 17 19 ∧
      (answerPqAuthorization mtprotoTags (specStream mtprotoVectorTag) trialDivider
        scenarioCore scenarioPayload).core.m_q = max 17 19 ∧
      (answerPqAuthorization mtprotoTags (specStream mtprotoVectorTag) trialDivider
        scenarioCore scenarioPayload).core.m_p
        ≤ (answerPqAuthorization mtprotoTags (specStream mtprotoVectorTag) trialDivider
        scenarioCore scenarioPayload).core.m_q ∧
      (answerPqAuthorization mtprotoTags (specStream mtprotoVectorTag) trialDivider
        scenarioCore scenarioPayload).core.m_p
        * (answerPqAuthorization mtprotoTags (specStream mtprotoVectorTag) trialDivider
        scenarioCore scenarioPayload).core.m_q = 17 * 19) :=
  ⟨⟨by norm_num, by norm_num, by decide, by decide, by decide, by decide, by decide, by decide⟩,
    answerPqAuthorization_factors mtprotoTags (specStream mtprotoVectorTag) trialDivider
      scenarioCore scenarioPayload 17 19 (by norm_num) (by norm_num) (by decide) (by decide)
      (by decide) (by decide) (by decide) (by decide) (by decide) (by decide) (by decide)⟩

/-! ### Facts about the byte helpers -/

theorem littleEndianBytes_length (n v : Nat) : (littleEndianBytes n v).length = n := by
  induction n generalizing v with
  | zero => rfl
  | succ n ih => simp [littleEndianBytes, ih]

theorem bigEndianBytes_length (n v : Nat) : (bigEndianBytes n v).length = n := by
  simp [bigEndianBytes, littleEndianBytes_length]

theorem randomBytes_length (rnd : Nat → Byte) (pos size : Nat) :
    (randomBytes rnd pos size).length = size := by
  simp [randomBytes]

/-- Writing a number over a buffer of exactly its width leaves the big-endian
bytes of the number and nothing of the old content. -/
theorem qToBigEndian_of_length (width src : Nat) (dest : QByteArray)
    (h : dest.length = width) : qToBigEndian width src dest = bigEndianBytes width src := by
  simp [qToBigEndian, List.drop_eq_nil_of_le (Nat.le_of_eq h)]

theorem foldl_bigEndian_append (xs : QByteArray) (b : Byte) :
    (xs ++ [b]).foldl (fun acc c => acc * 256 + c.val) 0
      = xs.foldl (fun acc c => acc * 256 + c.val) 0 * 256 + b.val := by
  simp [List.foldl_append]

/-- The bytes `bigEndianBytes n v` denote `v mod 256^n`, most significant first. -/
theorem qFromBigEndian_bigEndianBytes (n v : Nat) :
    qFromBigEndian n (bigEndianBytes n v) = v % 256 ^ n := by
  unfold qFromBigEndian
  rw [List.take_of_length_le (Nat.le_of_eq (bigEndianBytes_length n v))]
  induction n generalizing v with
  | zero => simp [bigEndianBytes, littleEndianBytes, Nat.mod_one]
  | succ n ih =>
    have h : bigEndianBytes (n + 1) v = bigEndianBytes n (v / 256) ++ [toByte v] := by
      simp [bigEndianBytes, littleEndianBytes]
    rw [h, foldl_bigEndian_append, ih (v / 256)]
    simp only [toByte]
    rw [Nat.pow_succ, Nat.mul_comm (256 ^ n) 256, Nat.mod_mul]
    omega

/-- The wire form of a byte string of 8 bytes: the length byte, the bytes, three
zero bytes. -/
theorem writeByteArray_of_length_eight (data : QByteArray) (h : data.length = 8) :
    writeByteArray data = toByte 8 :: data ++ [0, 0, 0] := by
  simp [writeByteArray, h, paddingTo4, List.replicate]

/-- The wire form of a byte string of 4 bytes: the length byte, the bytes, three
zero bytes. -/
theorem writeByteArray_of_length_four (data : QByteArray) (h : data.length = 4) :
    writeByteArray data = toByte 4 :: data ++ [0, 0, 0] := by
  simp [writeByteArray, h, paddingTo4, List.replicate]


/-- The segment of a sequence after `n` bytes and of `m` bytes, when the sequence
is put together from a part of `n` bytes, one of `m` bytes and a rest. -/
theorem segment_of_append (pre mid post : QByteArray) (n m : Nat)
    (hn : pre.length = n) (hm : mid.length = m) :
    ((pre ++ mid ++ post).drop n).take m = mid := by
  subst hn hm
  simp

theorem writeByteArray_bigEndianBytes_four_length (v : Nat) :
    (writeByteArray (bigEndianBytes 4 v)).length = 8 := by
  rw [writeByteArray_of_length_four _ (bigEndianBytes_length 4 _)]
  simp [bigEndianBytes_length]

theorem writeByteArray_bigEndianBytes_eight_length (v : Nat) :
    (writeByteArray (bigEndianBytes 8 v)).length = 12 := by
  rw [writeByteArray_of_length_eight _ (bigEndianBytes_length 8 _)]
  simp [bigEndianBytes_length]

/-! ### Facts about `requestDhParameters` -/

/-- The inner data in terms of the stream operators: the working buffer
`bigEndianNumber` holds exactly the big-endian bytes of the number written
last, at each of its three uses. -/
theorem requestDhParameters_innerData_eq (tl : TLValues) (sha1 : QByteArray → QByteArray)
    (rsa : QByteArray → SRsaKey → QByteArray) (rnd : Nat → Byte) (core : CTelegramCore) :
    (requestDhParameters tl sha1 rsa rnd core).innerData
      = writeTLValue tl.PQInnerData ++ writeByteArray (bigEndianBytes 8 core.m_pq)
        ++ writeByteArray (bigEndianBytes 4 core.m_p)
        ++ writeByteArray (bigEndianBytes 4 core.m_q)
        ++ writeNumber128 core.m_clientNonce ++ writeNumber128 core.m_serverNonce
        ++ randomBytes rnd 0 32 := by
  simp only [requestDhParameters, writeNumber256]
  rw [qToBigEndian_of_length 8 _ _ (by simp [fill]),
    qToBigEndian_of_length 4 _ (fill 0 4) (by simp [fill]),
    qToBigEndian_of_length 4 _ _ (bigEndianBytes_length 4 _)]

/-- The serialized inner data is 96 bytes long. -/
theorem requestDhParameters_innerData_length (tl : TLValues)
    (sha1 : QByteArray → QByteArray) (rsa : QByteArray → SRsaKey → QByteArray)
    (rnd : Nat → Byte) (core : CTelegramCore) :
    (requestDhParameters tl sha1 rsa rnd core).innerData.length = 96 := by
  rw [requestDhParameters_innerData_eq,
    writeByteArray_of_length_eight _ (bigEndianBytes_length 8 _),
    writeByteArray_of_length_four _ (bigEndianBytes_length 4 _),
    writeByteArray_of_length_four _ (bigEndianBytes_length 4 _)]
  simp [writeTLValue, writeUInt32, writeNumber128, littleEndianBytes_length,
    bigEndianBytes_length, randomBytes_length, core.m_clientNonce.size, core.m_serverNonce.size]

/-- The block passed to the RSA transform, as the function assembles it. -/
theorem requestDhParameters_rsa_argument (tl : TLValues) (sha1 : QByteArray → QByteArray)
    (rsa : QByteArray → SRsaKey → QByteArray) (rnd : Nat → Byte) (core : CTelegramCore) :
    (requestDhParameters tl sha1 rsa rnd core).plaintext
      = sha1 (requestDhParameters tl sha1 rsa rnd core).innerData
        ++ (requestDhParameters tl sha1 rsa rnd core).innerData
        ++ randomBytes rnd 32
          (255 - ((sha1 (requestDhParameters tl sha1 rsa rnd core).innerData).length
            + (requestDhParameters tl sha1 rsa rnd core).innerData.length)) := by
  simp only [requestDhParameters]

/-- The buffer handed to `sendPackage`, in terms of the stream operators. -/
theorem requestDhParameters_output_eq (tl : TLValues) (sha1 : QByteArray → QByteArray)
    (rsa : QByteArray → SRsaKey → QByteArray) (rnd : Nat → Byte) (core : CTelegramCore) :
    (requestDhParameters tl sha1 rsa rnd core).output
      = writeTLValue tl.ReqDHParams ++ writeNumber128 core.m_clientNonce
        ++ writeNumber128 core.m_serverNonce
        ++ writeByteArray (bigEndianBytes 4 core.m_p)
        ++ writeByteArray (bigEndianBytes 4 core.m_q)
        ++ writeUInt64 core.m_serverPublicFingersprint
        ++ writeByteArray (requestDhParameters tl sha1 rsa rnd core).encryptedPackage := by
  simp only [requestDhParameters]
  rw [qToBigEndian_of_length 4 core.m_p (fill 0 4) (by simp [fill]),
    qToBigEndian_of_length 4 core.m_q _ (bigEndianBytes_length 4 _)]

/-! ### The claims about `requestDhParameters` -/

/-- C8: for all values of the stored fields, every random source and every digest
function that returns 20 bytes, the block that `requestDhParameters` passes to
the RSA transform is exactly 255 bytes long and is the 20-byte digest of the
serialized inner data, followed by the inner data itself (96 bytes), followed
by 139 padding bytes from the random source. The inner data is the
serialization of the tag, the composite, `m_p`, `m_q` and the three nonces
(the new nonce being the 32 bytes just drawn from the random source), the
block is written out in these terms, and the result of the RSA transform on
the block is what the request carries as its last field. -/
theorem requestDhParameters_plaintext_block (tl : TLValues) (sha1 : QByteArray → QByteArray)
    (rsa : QByteArray → SRsaKey → QByteArray) (rnd : Nat → Byte) (core : CTelegramCore)
    (hsha : ∀ data, (sha1 data).length = 20) :
    (requestDhParameters tl sha1 rsa rnd core).plaintext.length = 255 ∧
      (requestDhParameters tl sha1 rsa rnd core).plaintext
        = sha1 (requestDhParameters tl sha1 rsa rnd core).innerData
          ++ (requestDhParameters tl sha1 rsa rnd core).innerData
          ++ randomBytes rnd 32 139 ∧
      (sha1 (requestDhParameters tl sha1 rsa rnd core).innerData).length = 20 ∧
      (requestDhParameters tl sha1 rsa rnd core).innerData.length = 96 ∧
      (randomBytes rnd 32 139).length = 139 ∧
      (requestDhParameters tl sha1 rsa rnd core).encryptedPackage
        = rsa (requestDhParameters tl sha1 rsa rnd core).plaintext core.m_rsaKey ∧
      (requestDhParameters tl sha1 rsa rnd core).innerData
        = writeTLValue tl.PQInnerData ++ writeByteArray (bigEndianBytes 8 core.m_pq)
          ++ writeByteArray (bigEndianBytes 4 core.m_p)
          ++ writeByteArray (bigEndianBytes 4 core.m_q)
          ++ writeNumber128 core.m_clientNonce ++ writeNumber128 core.m_serverNonce
          ++ writeNumber256 (requestDhParameters tl sha1 rsa rnd core).core.m_newNonce ∧
      (requestDhParameters tl sha1 rsa rnd core).core.m_newNonce.data = randomBytes rnd 0 32 ∧
      (requestDhParameters tl sha1 rsa rnd core).plaintext
        = sha1 (writeTLValue tl.PQInnerData ++ writeByteArray (bigEndianBytes 8 core.m_pq)
            ++ writeByteArray (bigEndianBytes 4 core.m_p)
            ++ writeByteArray (bigEndianBytes 4 core.m_q)
            ++ writeNumber128 core.m_clientNonce ++ writeNumber128 core.m_serverNonce
            ++ randomBytes rnd 0 32)
          ++ (writeTLValue tl.PQInnerData ++ writeByteArray (bigEndianBytes 8 core.m_pq)
            ++ writeByteArray (bigEndianBytes 4 core.m_p)
            ++ writeByteArray (bigEndianBytes 4 core.m_q)
            ++ writeNumber128 core.m_clientNonce ++ writeNumber128 core.m_serverNonce
            ++ randomBytes rnd 0 32)
          ++ randomBytes rnd 32 139 ∧
      (requestDhParameters tl sha1 rsa rnd core).output
        = writeTLValue tl.ReqDHParams ++ writeNumber128 core.m_clientNonce
          ++ writeNumber128 core.m_serverNonce
          ++ writeByteArray (bigEndianBytes 4 core.m_p)
          ++ writeByteArray (bigEndianBytes 4 core.m_q)
          ++ writeUInt64 core.m_serverPublicFingersprint
          ++ writeByteArray (rsa (requestDhParameters tl sha1 rsa rnd core).plaintext core.m_rsaKey) := by
  have hlen := requestDhParameters_innerData_length tl sha1 rsa rnd core
  have hinner := requestDhParameters_innerData_eq tl sha1 rsa rnd core
  have hnew : (requestDhParameters tl sha1 rsa rnd core).core.m_newNonce.data
      = randomBytes rnd 0 32 := by
    simp only [requestDhParameters]
  have hpl := requestDhParameters_rsa_argument tl sha1 rsa rnd core
  rw [hsha, hlen] at hpl
  have hpl2 := hpl
  rw [hinner] at hpl2
  have henc : (requestDhParameters tl sha1 rsa rnd core).encryptedPackage
      = rsa (requestDhParameters tl sha1 rsa rnd core).plaintext core.m_rsaKey := by
    simp only [requestDhParameters]
  refine ⟨?_, hpl, hsha _, hlen, randomBytes_length _ _ _, henc, ?_, hnew, hpl2, ?_⟩
  · rw [hpl]
    simp [hsha, hlen, randomBytes_length]
  · rw [hinner, writeNumber256, hnew]
  · rw [requestDhParameters_output_eq, henc]

/-- C8 at the instance of the scenario, with the stand-in digest. -/
theorem requestDhParameters_plaintext_block_witness :
    (∀ data, (lengthDigest data).length = 20) ∧
    ((requestDhParameters mtprotoTags lengthDigest reverseCipher
          countingBytes scenarioCore).plaintext.length = 255 ∧
      (requestDhParameters mtprotoTags lengthDigest reverseCipher
          countingBytes scenarioCore).plaintext
        = lengthDigest (requestDhParameters mtprotoTags lengthDigest reverseCipher
          countingBytes scenarioCore).innerData
          ++ (requestDhParameters mtprotoTags lengthDigest reverseCipher
          countingBytes scenarioCore).innerData
          ++ randomBytes countingBytes 32 139 ∧
      (lengthDigest (requestDhParameters mtprotoTags lengthDigest reverseCipher
          countingBytes scenarioCore).innerData).length = 20 ∧
      (requestDhParameters mtprotoTags lengthDigest reverseCipher
          countingBytes scenarioCore).innerData.length = 96 ∧
      (randomBytes countingBytes 32 139).length = 139 ∧
      (requestDhParameters mtprotoTags lengthDigest reverseCipher
          countingBytes scenarioCore).encryptedPackage
        = reverseCipher (requestDhParameters mtprotoTags lengthDigest reverseCipher
          countingBytes scenarioCore).plaintext scenarioCore.m_rsaKey ∧
      (requestDhParameters mtprotoTags lengthDigest reverseCipher
          countingBytes scenarioCore).innerData
        = writeTLValue mtprotoTags.PQInnerData ++ writeByteArray (bigEndianBytes 8 scenarioCore.m_pq)
          ++ writeByteArray (bigEndianBytes 4 scenarioCore.m_p)
          ++ writeByteArray (bigEndianBytes 4 scenarioCore.m_q)
          ++ writeNumber128 scenarioCore.m_clientNonce ++ writeNumber128 scenarioCore.m_serverNonce
          ++ writeNumber256 (requestDhParameters mtprotoTags lengthDigest reverseCipher
          countingBytes scenarioCore).core.m_newNonce ∧
      (requestDhParameters mtprotoTags lengthDigest reverseCipher
          countingBytes scenarioCore).core.m_newNonce.data = randomBytes countingBytes 0 32 ∧
      (requestDhParameters mtprotoTags lengthDigest reverseCipher
          countingBytes scenarioCore).plaintext
        = lengthDigest (writeTLValue mtprotoTags.PQInnerData ++ writeByteArray (bigEndianBytes 8 scenarioCore.m_pq)
            ++ writeByteArray (bigEndianBytes 4 scenarioCore.m_p)
            ++ writeByteArray (bigEndianBytes 4 scenarioCore.m_q)
            ++ writeNumber128 scenarioCore.m_clientNonce ++ writeNumber128 scenarioCore.m_serverNonce
            ++ randomBytes countingBytes 0 32)
          ++ (writeTLValue mtprotoTags.PQInnerData ++ writeByteArray (bigEndianBytes 8 scenarioCore.m_pq)
            ++ writeByteArray (bigEndianBytes 4 scenarioCore.m_p)
            ++ writeByteArray (bigEndianBytes 4 scenarioCore.m_q)
            ++ writeNumber128 scenarioCore.m_clientNonce ++ writeNumber128 scenarioCore.m_serverNonce
            ++ randomBytes countingBytes 0 32)
          ++ randomBytes countingBytes 32 139 ∧
      (requestDhParameters mtprotoTags lengthDigest reverseCipher
          countingBytes scenarioCore).output
        = writeTLValue mtprotoTags.ReqDHParams ++ writeNumber128 scenarioCore.m_clientNonce
          ++ writeNumber128 scenarioCore.m_serverNonce
          ++ writeByteArray (bigEndianBytes 4 scenarioCore.m_p)
          ++ writeByteArray (bigEndianBytes 4 scenarioCore.m_q)
          ++ writeUInt64 scenarioCore.m_serverPublicFingersprint
          ++ writeByteArray (reverseCipher (requestDhParameters mtprotoTags lengthDigest reverseCipher
          countingBytes scenarioCore).plaintext scenarioCore.m_rsaKey)) :=
  ⟨fun _ => List.length_replicate _ _,
    requestDhParameters_plaintext_block mtprotoTags lengthDigest reverseCipher countingBytes
      scenarioCore (fun _ => List.length_replicate _ _)⟩

/-- C9: the inner data serialized by `requestDhParameters` consists, in this order
and with nothing else, of the `PQInnerData` tag (4 bytes, little-endian), the
composite as 8 big-endian bytes, `m_p` as 4 big-endian bytes, `m_q` as 4
big-endian bytes (each as a wire byte string: length byte, the bytes, three
zero bytes), the client nonce (16 bytes), the server nonce (16 bytes) and the
new nonce just generated (32 bytes). -/
theorem requestDhParameters_innerData_layout (tl : TLValues) (sha1 : QByteArray → QByteArray)
    (rsa : QByteArray → SRsaKey → QByteArray) (rnd : Nat → Byte) (core : CTelegramCore) :
    (requestDhParameters tl sha1 rsa rnd core).innerData
      = littleEndianBytes 4 tl.PQInnerData
        ++ (toByte 8 :: bigEndianBytes 8 core.m_pq ++ [0, 0, 0])
        ++ (toByte 4 :: bigEndianBytes 4 core.m_p ++ [0, 0, 0])
        ++ (toByte 4 :: bigEndianBytes 4 core.m_q ++ [0, 0, 0])
        ++ core.m_clientNonce.data ++ core.m_serverNonce.data
        ++ (requestDhParameters tl sha1 rsa rnd core).core.m_newNonce.data ∧
      (requestDhParameters tl sha1 rsa rnd core).innerData
        = writeTLValue tl.PQInnerData ++ writeByteArray (bigEndianBytes 8 core.m_pq)
          ++ writeByteArray (bigEndianBytes 4 core.m_p)
          ++ writeByteArray (bigEndianBytes 4 core.m_q)
          ++ writeNumber128 core.m_clientNonce ++ writeNumber128 core.m_serverNonce
          ++ writeNumber256 (requestDhParameters tl sha1 rsa rnd core).core.m_newNonce ∧
      (littleEndianBytes 4 tl.PQInnerData).length = 4 ∧
      (bigEndianBytes 8 core.m_pq).length = 8 ∧
      qFromBigEndian 8 (bigEndianBytes 8 core.m_pq) = core.m_pq % 2 ^ 64 ∧
      (bigEndianBytes 4 core.m_p).length = 4 ∧
      qFromBigEndian 4 (bigEndianBytes 4 core.m_p) = core.m_p % 2 ^ 32 ∧
      (bigEndianBytes 4 core.m_q).length = 4 ∧
      qFromBigEndian 4 (bigEndianBytes 4 core.m_q) = core.m_q % 2 ^ 32 ∧
      core.m_clientNonce.data.length = 16 ∧ core.m_serverNonce.data.length = 16 ∧
      (requestDhParameters tl sha1 rsa rnd core).core.m_newNonce.data.length = 32 ∧
      (requestDhParameters tl sha1 rsa rnd core).core.m_newNonce.data = randomBytes rnd 0 32 := by
  have hnew : (requestDhParameters tl sha1 rsa rnd core).core.m_newNonce.data
      = randomBytes rnd 0 32 := by
    simp only [requestDhParameters]
  have heq := requestDhParameters_innerData_eq tl sha1 rsa rnd core
  refine ⟨?_, ?_, littleEndianBytes_length _ _, bigEndianBytes_length _ _,
    qFromBigEndian_bigEndianBytes 8 _, bigEndianBytes_length _ _,
    qFromBigEndian_bigEndianBytes 4 _, bigEndianBytes_length _ _,
    qFromBigEndian_bigEndianBytes 4 _, core.m_clientNonce.size, core.m_serverNonce.size,
    (requestDhParameters tl sha1 rsa rnd core).core.m_newNonce.size, hnew⟩
  · rw [heq, hnew, writeByteArray_of_length_eight _ (bigEndianBytes_length 8 _),
      writeByteArray_of_length_four _ (bigEndianBytes_length 4 _),
      writeByteArray_of_length_four _ (bigEndianBytes_length 4 _)]
    rfl
  · rw [heq, writeNumber256, hnew]

/-- C10: the payload of request 2 built by `requestDhParameters` consists, in this
order, of the `ReqDHParams` tag, the client nonce, the server nonce, `m_p` as 4
big-endian bytes, `m_q` as 4 big-endian bytes (each as a wire byte string),
the stored server key fingerprint as a 64-bit wire integer, and the RSA
ciphertext as a wire byte string; the 16 bytes that carry `m_p` and `m_q` in
clear (from offset 36 of the payload) are the same as the 16 bytes that carry
them in the inner data (from its offset 16). -/
theorem requestDhParameters_output_layout (tl : TLValues) (sha1 : QByteArray → QByteArray)
    (rsa : QByteArray → SRsaKey → QByteArray) (rnd : Nat → Byte) (core : CTelegramCore) :
    (requestDhParameters tl sha1 rsa rnd core).output
      = writeTLValue tl.ReqDHParams ++ writeNumber128 core.m_clientNonce
        ++ writeNumber128 core.m_serverNonce
        ++ writeByteArray (bigEndianBytes 4 core.m_p)
        ++ writeByteArray (bigEndianBytes 4 core.m_q)
        ++ writeUInt64 core.m_serverPublicFingersprint
        ++ writeByteArray (requestDhParameters tl sha1 rsa rnd core).encryptedPackage ∧
      (requestDhParameters tl sha1 rsa rnd core).encryptedPackage
        = rsa (requestDhParameters tl sha1 rsa rnd core).plaintext core.m_rsaKey ∧
      (((requestDhParameters tl sha1 rsa rnd core).output.drop 36).take 16
        = writeByteArray (bigEndianBytes 4 core.m_p)
          ++ writeByteArray (bigEndianBytes 4 core.m_q)) ∧
      (((requestDhParameters tl sha1 rsa rnd core).innerData.drop 16).take 16
        = writeByteArray (bigEndianBytes 4 core.m_p)
          ++ writeByteArray (bigEndianBytes 4 core.m_q)) ∧
      ((requestDhParameters tl sha1 rsa rnd core).output.drop 36).take 16
        = ((requestDhParameters tl sha1 rsa rnd core).innerData.drop 16).take 16 := by
  have hout : (requestDhParameters tl sha1 rsa rnd core).output
      = writeTLValue tl.ReqDHParams ++ writeNumber128 core.m_clientNonce
        ++ writeNumber128 core.m_serverNonce
        ++ writeByteArray (bigEndianBytes 4 core.m_p)
        ++ writeByteArray (bigEndianBytes 4 core.m_q)
        ++ writeUInt64 core.m_serverPublicFingersprint
        ++ writeByteArray (requestDhParameters tl sha1 rsa rnd core).encryptedPackage := by
    simp only [requestDhParameters]
    rw [qToBigEndian_of_length 4 core.m_p (fill 0 4) (by simp [fill]),
      qToBigEndian_of_length 4 core.m_q _ (bigEndianBytes_length 4 _)]
  have hclear : ((requestDhParameters tl sha1 rsa rnd core).output.drop 36).take 16
      = writeByteArray (bigEndianBytes 4 core.m_p)
        ++ writeByteArray (bigEndianBytes 4 core.m_q) := by
    rw [hout]
    simp only [List.append_assoc]
    rw [← List.append_assoc (writeTLValue tl.ReqDHParams),
      ← List.append_assoc (writeTLValue tl.ReqDHParams ++ writeNumber128 core.m_clientNonce),
      ← List.append_assoc (writeByteArray (bigEndianBytes 4 core.m_p)),
      ← List.append_assoc (writeTLValue tl.ReqDHParams ++ writeNumber128 core.m_clientNonce
        ++ writeNumber128 core.m_serverNonce)]
    apply segment_of_append
    · simp [writeTLValue, writeUInt32, writeNumber128, littleEndianBytes_length,
        core.m_clientNonce.size, core.m_serverNonce.size]
    · simp [writeByteArray_bigEndianBytes_four_length]
  have hinner : ((requestDhParameters tl sha1 rsa rnd core).innerData.drop 16).take 16
      = writeByteArray (bigEndianBytes 4 core.m_p)
        ++ writeByteArray (bigEndianBytes 4 core.m_q) := by
    rw [requestDhParameters_innerData_eq]
    simp only [List.append_assoc]
    rw [← List.append_assoc (writeTLValue tl.PQInnerData),
      ← List.append_assoc (writeByteArray (bigEndianBytes 4 core.m_p)),
      ← List.append_assoc (writeTLValue tl.PQInnerData
        ++ writeByteArray (bigEndianBytes 8 core.m_pq))]
    apply segment_of_append
    · simp [writeTLValue, writeUInt32, littleEndianBytes_length,
        writeByteArray_bigEndianBytes_eight_length]
    · simp [writeByteArray_bigEndianBytes_four_length]
  refine ⟨hout, ?_, hclear, hinner, hclear.trans hinner.symm⟩
  simp only [requestDhParameters]


/-! ### Further claims about the timestamp codec -/

/-- C18: for every `t` with `0 ≤ t < 1000 * 2^32` the timestamp round trip is
exact: `timeStampToMSecsSinceEpoch (formatTimeStamp t) = t`. -/
theorem timeStamp_roundtrip_identity (t : Int) (h0 : 0 ≤ t) (h1 : t < 1000 * 2 ^ 32) :
    (timeStampToMSecsSinceEpoch (formatTimeStamp t) : Int) = t ∧
      timeStampToMSecsSinceEpoch (formatTimeStamp t) = t.toNat := by
  have h := timeStamp_roundtrip_exact t h0 h1
  refine ⟨h, ?_⟩
  omega

/-- C18 at the last value of the range. -/
theorem timeStamp_roundtrip_identity_witness :
    ((0 : Int) ≤ 4294967295999 ∧ (4294967295999 : Int) < 1000 * 2 ^ 32) ∧
      ((timeStampToMSecsSinceEpoch (formatTimeStamp 4294967295999) : Int) = 4294967295999 ∧
        timeStampToMSecsSinceEpoch (formatTimeStamp 4294967295999)
          = (4294967295999 : Int).toNat) :=
  ⟨⟨by decide, by decide⟩,
    timeStamp_roundtrip_identity 4294967295999 (by decide) (by decide)⟩

/-- C20: `formatTimeStamp` is strictly increasing on `0 ≤ t < 1000 * 2^32`; the
sub-second summand `4294967 * (t mod 1000)` is below `2^32`, so it never
carries into the seconds field, which holds `t div 1000`. -/
theorem formatTimeStamp_strictMono (t1 t2 : Int) (h0 : 0 ≤ t1) (h12 : t1 < t2)
    (h2 : t2 < 1000 * 2 ^ 32) :
    formatTimeStamp t1 < formatTimeStamp t2 ∧
      (4294967 * (t1 % 1000).toNat < 2 ^ 32 ∧ formatTimeStamp t1 / 2 ^ 32 = (t1 / 1000).toNat ∧
        formatTimeStamp t1 % 2 ^ 32 = 4294967 * (t1 % 1000).toNat) ∧
      (4294967 * (t2 % 1000).toNat < 2 ^ 32 ∧ formatTimeStamp t2 / 2 ^ 32 = (t2 / 1000).toNat ∧
        formatTimeStamp t2 % 2 ^ 32 = 4294967 * (t2 % 1000).toNat) := by
  rw [formatTimeStamp_of_lt t1 h0 (by omega), formatTimeStamp_of_lt t2 (by omega) h2]
  have hs1 : (t1 / 1000).toNat ≤ (t2 / 1000).toNat := by omega
  have hr1 : (t1 % 1000).toNat < 1000 := by omega
  have hr2 : (t2 % 1000).toNat < 1000 := by omega
  have hlt : (t1 / 1000).toNat < (t2 / 1000).toNat ∨
      ((t1 / 1000).toNat = (t2 / 1000).toNat ∧ (t1 % 1000).toNat < (t2 % 1000).toNat) := by
    omega
  generalize (t1 / 1000).toNat = s1 at hs1 hlt ⊢
  generalize (t2 / 1000).toNat = s2 at hs1 hlt ⊢
  generalize (t1 % 1000).toNat = r1 at hr1 hlt ⊢
  generalize (t2 % 1000).toNat = r2 at hr2 hlt ⊢
  norm_num
  refine ⟨?_, ⟨?_, ?_, ?_⟩, ⟨?_, ?_, ?_⟩⟩ <;> omega

/-- C20 at the two sides of a change of second. -/
theorem formatTimeStamp_strictMono_witness :
    ((0 : Int) ≤ 1700000000999 ∧ (1700000000999 : Int) < 1700000001000 ∧
      (1700000001000 : Int) < 1000 * 2 ^ 32) ∧
    (formatTimeStamp 1700000000999 < formatTimeStamp 1700000001000 ∧
      (4294967 * ((1700000000999 : Int) % 1000).toNat < 2 ^ 32 ∧
        formatTimeStamp 1700000000999 / 2 ^ 32 = ((1700000000999 : Int) / 1000).toNat ∧
        formatTimeStamp 1700000000999 % 2 ^ 32
          = 4294967 * ((1700000000999 : Int) % 1000).toNat) ∧
      (4294967 * ((1700000001000 : Int) % 1000).toNat < 2 ^ 32 ∧
        formatTimeStamp 1700000001000 / 2 ^ 32 = ((1700000001000 : Int) / 1000).toNat ∧
        formatTimeStamp 1700000001000 % 2 ^ 32
          = 4294967 * ((1700000001000 : Int) % 1000).toNat)) :=
  ⟨⟨by decide, by decide, by decide⟩,
    formatTimeStamp_strictMono 1700000000999 1700000001000 (by decide) (by decide)
      (by decide)⟩

/-! ### The claim about `initTmpAesKeys` -/

/-- C11: for every (16-byte) server nonce and (32-byte) new nonce and every digest
function that returns 20 bytes, `initTmpAesKeys` sets the temporary key to
`SHA1(NewNonce ++ ServerNonce) ++ SHA1(ServerNonce ++ NewNonce)[0:12]` and the
temporary IV to
`SHA1(ServerNonce ++ NewNonce)[12:20] ++ SHA1(NewNonce ++ NewNonce) ++ NewNonce[0:4]`;
both are exactly 32 bytes long, and they depend on no other field: an
instance with the same two nonces gets the same key and IV, whatever its
client nonce and other fields are. -/
theorem initTmpAesKeys_material (sha1 : QByteArray → QByteArray) (core : CTelegramCore)
    (hsha : ∀ data, (sha1 data).length = 20) :
    (initTmpAesKeys sha1 core).m_tmpAesKey
        = sha1 (core.m_newNonce.data ++ core.m_serverNonce.data)
          ++ (sha1 (core.m_serverNonce.data ++ core.m_newNonce.data)).take 12 ∧
      (initTmpAesKeys sha1 core).m_tmpAesIv
        = ((sha1 (core.m_serverNonce.data ++ core.m_newNonce.data)).drop 12).take 8
          ++ sha1 (core.m_newNonce.data ++ core.m_newNonce.data)
          ++ core.m_newNonce.data.take 4 ∧
      ((sha1 (core.m_serverNonce.data ++ core.m_newNonce.data)).drop 12).take 8
        = (sha1 (core.m_serverNonce.data ++ core.m_newNonce.data)).drop 12 ∧
      (initTmpAesKeys sha1 core).m_tmpAesKey.length = 32 ∧
      (initTmpAesKeys sha1 core).m_tmpAesIv.length = 32 ∧
      core.m_serverNonce.data.length = 16 ∧ core.m_newNonce.data.length = 32 ∧
      (∀ other : CTelegramCore, other.m_serverNonce = core.m_serverNonce →
        other.m_newNonce = core.m_newNonce →
        (initTmpAesKeys sha1 other).m_tmpAesKey = (initTmpAesKeys sha1 core).m_tmpAesKey ∧
        (initTmpAesKeys sha1 other).m_tmpAesIv = (initTmpAesKeys sha1 core).m_tmpAesIv) := by
  have hnn := core.m_newNonce.size
  refine ⟨by simp [initTmpAesKeys, mid], by simp [initTmpAesKeys, mid], ?_, ?_, ?_,
    core.m_serverNonce.size, hnn, ?_⟩
  · apply List.take_of_length_le
    simp [hsha]
  · simp [initTmpAesKeys, mid, hsha]
  · simp [initTmpAesKeys, mid, hsha, hnn]
  · intro other h1 h2
    simp [initTmpAesKeys, h1, h2]

/-- C11 at the instance of the scenario, with the stand-in digest. -/
theorem initTmpAesKeys_material_witness :
    (∀ data, (lengthDigest data).length = 20) ∧
    ((initTmpAesKeys lengthDigest scenarioCore).m_tmpAesKey
        = lengthDigest (scenarioCore.m_newNonce.data ++ scenarioCore.m_serverNonce.data)
          ++ (lengthDigest
            (scenarioCore.m_serverNonce.data ++ scenarioCore.m_newNonce.data)).take 12 ∧
      (initTmpAesKeys lengthDigest scenarioCore).m_tmpAesIv
        = ((lengthDigest
            (scenarioCore.m_serverNonce.data ++ scenarioCore.m_newNonce.data)).drop 12).take 8
          ++ lengthDigest (scenarioCore.m_newNonce.data ++ scenarioCore.m_newNonce.data)
          ++ scenarioCore.m_newNonce.data.take 4 ∧
      ((lengthDigest
          (scenarioCore.m_serverNonce.data ++ scenarioCore.m_newNonce.data)).drop 12).take 8
        = (lengthDigest
          (scenarioCore.m_serverNonce.data ++ scenarioCore.m_newNonce.data)).drop 12 ∧
      (initTmpAesKeys lengthDigest scenarioCore).m_tmpAesKey.length = 32 ∧
      (initTmpAesKeys lengthDigest scenarioCore).m_tmpAesIv.length = 32 ∧
      scenarioCore.m_serverNonce.data.length = 16 ∧
      scenarioCore.m_newNonce.data.length = 32 ∧
      (∀ other : CTelegramCore, other.m_serverNonce = scenarioCore.m_serverNonce →
        other.m_newNonce = scenarioCore.m_newNonce →
        (initTmpAesKeys lengthDigest other).m_tmpAesKey
          = (initTmpAesKeys lengthDigest scenarioCore).m_tmpAesKey ∧
        (initTmpAesKeys lengthDigest other).m_tmpAesIv
          = (initTmpAesKeys lengthDigest scenarioCore).m_tmpAesIv)) :=
  ⟨fun _ => List.length_replicate _ _,
    initTmpAesKeys_material lengthDigest scenarioCore (fun _ => List.length_replicate _ _)⟩

/-! ### Facts about the envelope -/

/-- The bytes `littleEndianBytes n v` denote `v mod 256^n`. -/
theorem littleEndianValue_littleEndianBytes (n v : Nat) :
    littleEndianValue (littleEndianBytes n v) = v % 256 ^ n := by
  induction n generalizing v with
  | zero => simp [littleEndianBytes, littleEndianValue, Nat.mod_one]
  | succ n ih =>
    simp only [littleEndianBytes, littleEndianValue, toByte, ih]
    rw [Nat.pow_succ, Nat.mul_comm (256 ^ n) 256, Nat.mod_mul]

/-- The decoder of a 64-bit integer undoes the encoder. -/
theorem decodeUInt64_writeUInt64 (v : Nat) (rest : QByteArray) :
    decodeUInt64 (writeUInt64 v ++ rest) = some (v % 2 ^ 64, rest) := by
  have hlen : (littleEndianBytes 8 v).length = 8 := littleEndianBytes_length 8 v
  have h8 : 8 ≤ (littleEndianBytes 8 v ++ rest).length := by
    simp [hlen]
  unfold decodeUInt64 writeUInt64
  rw [if_pos h8, List.take_left' hlen, List.drop_left' hlen,
    littleEndianValue_littleEndianBytes]
  norm_num

/-- The decoder of a 32-bit integer undoes the encoder. -/
theorem decodeUInt32_writeUInt32 (v : Nat) (rest : QByteArray) :
    decodeUInt32 (writeUInt32 v ++ rest) = some (v % 2 ^ 32, rest) := by
  have hlen : (littleEndianBytes 4 v).length = 4 := littleEndianBytes_length 4 v
  have h4 : 4 ≤ (littleEndianBytes 4 v ++ rest).length := by
    simp [hlen]
  unfold decodeUInt32 writeUInt32
  rw [if_pos h4, List.take_left' hlen, List.drop_left' hlen,
    littleEndianValue_littleEndianBytes]
  norm_num

/-- The header that the decoding stream reads from a package put together by the
encoders. -/
theorem readEnvelopeHeader_specStream (vectorTag auth timeStamp length : Nat)
    (payload : QByteArray) :
    readEnvelopeHeader (specStream vectorTag)
        (writeUInt64 auth ++ writeUInt64 timeStamp ++ writeUInt32 length ++ payload)
      = { auth := auth % 2 ^ 64, timeStamp := timeStamp % 2 ^ 64, length := length % 2 ^ 32,
          unread := payload } := by
  simp only [readEnvelopeHeader, specStream, List.append_assoc, decodeUInt64_writeUInt64,
    decodeUInt32_writeUInt32, Option.getD_some]

/-- The result of `whenReadyRead` when the length check fails. -/
theorem whenReadyRead_of_mismatch (tl : TLValues) (inputStream : CTelegramStream)
    (findDivider : Nat → Nat) (pn : Nat) (core : CTelegramCore) (incoming : QByteArray)
    (h : inputStream.bytesRemaining (readEnvelopeHeader inputStream incoming).unread
      ≠ (readEnvelopeHeader inputStream incoming).length) :
    whenReadyRead tl inputStream findDivider pn core incoming
      = { pn := pn, core := core, payload := none, answer := none } := by
  simp only [readEnvelopeHeader] at h
  simp only [whenReadyRead, h, ne_eq, not_false_eq_true, if_true]

/-- The payload and the counter of `whenReadyRead` when the length check passes. -/
theorem whenReadyRead_of_match (tl : TLValues) (inputStream : CTelegramStream)
    (findDivider : Nat → Nat) (pn : Nat) (core : CTelegramCore) (incoming : QByteArray)
    (h : inputStream.bytesRemaining (readEnvelopeHeader inputStream incoming).unread
      = (readEnvelopeHeader inputStream incoming).length) :
    (whenReadyRead tl inputStream findDivider pn core incoming).payload
        = some (inputStream.readBytes (readEnvelopeHeader inputStream incoming).length
          (readEnvelopeHeader inputStream incoming).unread).1 ∧
      (whenReadyRead tl inputStream findDivider pn core incoming).pn = pn + 1 := by
  simp only [readEnvelopeHeader] at h
  simp only [whenReadyRead, readEnvelopeHeader, h, ne_eq, not_true_eq_false, if_false]
  split_ifs <;> exact ⟨rfl, rfl⟩

/-! ### The claims about the envelope -/

/-- C12: for every payload `b` shorter than `2^32` bytes, the package that
`sendPackage` hands to the transport is 8 zero bytes, then the 8 bytes of the
timestamp, then the length of `b` as 4 little-endian bytes, then `b`; and when
a package of that form is received (through a stream that decodes as the
specification says), the length check of `whenReadyRead` passes and the
payload it extracts is `b`. -/
theorem sendPackage_envelope (formatClientTimeStamp : Int → Nat)
    (currentMSecsSinceEpoch : Int) (tl : TLValues) (vectorTag : Nat)
    (findDivider : Nat → Nat) (pn : Nat) (core : CTelegramCore) (b : QByteArray)
    (hb : b.length < 2 ^ 32) :
    sendPackage formatClientTimeStamp currentMSecsSinceEpoch b
        = List.replicate 8 (0 : Byte)
          ++ littleEndianBytes 8 (formatClientTimeStamp currentMSecsSinceEpoch)
          ++ littleEndianBytes 4 b.length ++ b ∧
      (littleEndianBytes 8 (formatClientTimeStamp currentMSecsSinceEpoch)).length = 8 ∧
      (littleEndianBytes 4 b.length).length = 4 ∧
      littleEndianValue (littleEndianBytes 4 b.length) = b.length ∧
      (specStream vectorTag).bytesRemaining
          (readEnvelopeHeader (specStream vectorTag)
            (sendPackage formatClientTimeStamp currentMSecsSinceEpoch b)).unread
        = (readEnvelopeHeader (specStream vectorTag)
            (sendPackage formatClientTimeStamp currentMSecsSinceEpoch b)).length ∧
      (whenReadyRead tl (specStream vectorTag) findDivider pn core
          (sendPackage formatClientTimeStamp currentMSecsSinceEpoch b)).payload = some b ∧
      (whenReadyRead tl (specStream vectorTag) findDivider pn core
          (sendPackage formatClientTimeStamp currentMSecsSinceEpoch b)).pn = pn + 1 := by
  have hmod : b.length % 2 ^ 32 = b.length := Nat.mod_eq_of_lt hb
  have hsend : sendPackage formatClientTimeStamp currentMSecsSinceEpoch b
      = writeUInt64 0 ++ writeUInt64 (formatClientTimeStamp currentMSecsSinceEpoch)
        ++ writeUInt32 b.length ++ b := by
    simp only [sendPackage, hmod]
  have hhead := readEnvelopeHeader_specStream vectorTag 0
    (formatClientTimeStamp currentMSecsSinceEpoch) b.length b
  rw [← hsend, hmod] at hhead
  have hcheck : (specStream vectorTag).bytesRemaining
      (readEnvelopeHeader (specStream vectorTag)
        (sendPackage formatClientTimeStamp currentMSecsSinceEpoch b)).unread
      = (readEnvelopeHeader (specStream vectorTag)
        (sendPackage formatClientTimeStamp currentMSecsSinceEpoch b)).length := by
    rw [hhead]
    rfl
  have hread := whenReadyRead_of_match tl (specStream vectorTag) findDivider pn core
    (sendPackage formatClientTimeStamp currentMSecsSinceEpoch b) hcheck
  refine ⟨?_, littleEndianBytes_length _ _, littleEndianBytes_length _ _, ?_, hcheck, ?_,
    hread.2⟩
  · rw [hsend]
    rfl
  · rw [littleEndianValue_littleEndianBytes]
    exact Nat.mod_eq_of_lt (by norm_num at hb ⊢; exact hb)
  · rw [hread.1, hhead]
    simp [specStream]

/-- C12 at the first response of the scenario. -/
theorem sendPackage_envelope_witness :
    scenarioPayload.length < 2 ^ 32 ∧
    (sendPackage plainClientTimeStamp 1700000000123 scenarioPayload
        = List.replicate 8 (0 : Byte)
          ++ littleEndianBytes 8 (plainClientTimeStamp 1700000000123)
          ++ littleEndianBytes 4 scenarioPayload.length ++ scenarioPayload ∧
      (littleEndianBytes 8 (plainClientTimeStamp 1700000000123)).length = 8 ∧
      (littleEndianBytes 4 scenarioPayload.length).length = 4 ∧
      littleEndianValue (littleEndianBytes 4 scenarioPayload.length)
        = scenarioPayload.length ∧
      (specStream mtprotoVectorTag).bytesRemaining
          (readEnvelopeHeader (specStream mtprotoVectorTag)
            (sendPackage plainClientTimeStamp 1700000000123 scenarioPayload)).unread
        = (readEnvelopeHeader (specStream mtprotoVectorTag)
            (sendPackage plainClientTimeStamp 1700000000123 scenarioPayload)).length ∧
      (whenReadyRead mtprotoTags (specStream mtprotoVectorTag) trialDivider 0 scenarioCore
          (sendPackage plainClientTimeStamp 1700000000123 scenarioPayload)).payload
        = some scenarioPayload ∧
      (whenReadyRead mtprotoTags (specStream mtprotoVectorTag) trialDivider 0 scenarioCore
          (sendPackage plainClientTimeStamp 1700000000123 scenarioPayload)).pn = 0 + 1) :=
  ⟨by decide, sendPackage_envelope plainClientTimeStamp 1700000000123 mtprotoTags
    mtprotoVectorTag trialDivider 0 scenarioCore scenarioPayload (by decide)⟩

/-- C13: for every inbound package whose declared payload length (the 32-bit
integer that ends the envelope header) differs from the number of bytes that
remain after the header, `whenReadyRead` extracts no payload, passes nothing to
`answerPqAuthorization`, and leaves the fields of the instance and the counter
`pn` of packages handled so far as they were. -/
theorem whenReadyRead_length_mismatch (tl : TLValues) (inputStream : CTelegramStream)
    (findDivider : Nat → Nat) (pn : Nat) (core : CTelegramCore) (incoming : QByteArray)
    (h : (readEnvelopeHeader inputStream incoming).length
      ≠ inputStream.bytesRemaining (readEnvelopeHeader inputStream incoming).unread) :
    (whenReadyRead tl inputStream findDivider pn core incoming).answer = none ∧
      (whenReadyRead tl inputStream findDivider pn core incoming).payload = none ∧
      (whenReadyRead tl inputStream findDivider pn core incoming).core = core ∧
      (whenReadyRead tl inputStream findDivider pn core incoming).pn = pn := by
  rw [whenReadyRead_of_mismatch tl inputStream findDivider pn core incoming (Ne.symm h)]
  exact ⟨rfl, rfl, rfl, rfl⟩

/-- C13 at a package of 23 bytes whose header declares 5 payload bytes while 3
follow the 20 bytes of the header. -/
theorem whenReadyRead_length_mismatch_witness :
    (corruptedPackage.length = 20 + 3 ∧
      (readEnvelopeHeader (specStream mtprotoVectorTag) corruptedPackage).length = 5 ∧
      (readEnvelopeHeader (specStream mtprotoVectorTag) corruptedPackage).length
        ≠ (specStream mtprotoVectorTag).bytesRemaining
          (readEnvelopeHeader (specStream mtprotoVectorTag) corruptedPackage).unread) ∧
    ((whenReadyRead mtprotoTags (specStream mtprotoVectorTag) trialDivider 0 scenarioCore
        corruptedPackage).answer = none ∧
      (whenReadyRead mtprotoTags (specStream mtprotoVectorTag) trialDivider 0 scenarioCore
        corruptedPackage).payload = none ∧
      (whenReadyRead mtprotoTags (specStream mtprotoVectorTag) trialDivider 0 scenarioCore
        corruptedPackage).core = scenarioCore ∧
      (whenReadyRead mtprotoTags (specStream mtprotoVectorTag) trialDivider 0 scenarioCore
        corruptedPackage).pn = 0) :=
  ⟨by decide, whenReadyRead_length_mismatch mtprotoTags (specStream mtprotoVectorTag)
    trialDivider 0 scenarioCore corruptedPackage (by decide)⟩

/-- C17 fails on the code: the counter `pn` of `whenReadyRead` is one variable for
all instances. Instance B alone passes its first well-framed package to
`answerPqAuthorization` (which accepts it); after instance A has received a
well-framed package the counter is 1, and the same first package of B is
extracted but not passed on, and B's fields stay as they were. -/
theorem whenReadyRead_shared_counter :
    (whenReadyRead mtprotoTags (specStream mtprotoVectorTag) trialDivider 0 secondCore
        secondPackage).answer.isSome = true ∧
      ((whenReadyRead mtprotoTags (specStream mtprotoVectorTag) trialDivider 0 secondCore
        secondPackage).answer.map (fun a => a.result)) = some true ∧
      (whenReadyRead mtprotoTags (specStream mtprotoVectorTag) trialDivider 0 scenarioCore
        scenarioPackage).pn = 1 ∧
      (whenReadyRead mtprotoTags (specStream mtprotoVectorTag) trialDivider
        (whenReadyRead mtprotoTags (specStream mtprotoVectorTag) trialDivider 0 scenarioCore
          scenarioPackage).pn secondCore secondPackage).answer = none ∧
      (whenReadyRead mtprotoTags (specStream mtprotoVectorTag) trialDivider
        (whenReadyRead mtprotoTags (specStream mtprotoVectorTag) trialDivider 0 scenarioCore
          scenarioPackage).pn secondCore secondPackage).payload.isSome = true ∧
      (whenReadyRead mtprotoTags (specStream mtprotoVectorTag) trialDivider
        (whenReadyRead mtprotoTags (specStream mtprotoVectorTag) trialDivider 0 scenarioCore
          scenarioPackage).pn secondCore secondPackage).core = secondCore := by
  decide

/-! ### Further facts about `answerPqAuthorization` -/

/-- A call that fails one of the five checks before the key match returns false
and emits nothing. -/
theorem answerPqAuthorization_of_failed_check (tl : TLValues)
    (inputStream : CTelegramStream) (findDivider : Nat → Nat) (core : CTelegramCore)
    (payload : QByteArray)
    (h : ¬ ((readResPq inputStream payload).responsePqValue = tl.ResPQ ∧
      (readResPq inputStream payload).clientNonce = core.m_clientNonce ∧
      (readResPq inputStream payload).pq.length = 8 ∧
      findDivider (qFromBigEndian 8 (readResPq inputStream payload).pq) ≠ 1 ∧
      (readResPq inputStream payload).fingersprints.length = 1)) :
    (answerPqAuthorization tl inputStream findDivider core payload).result = false ∧
      (answerPqAuthorization tl inputStream findDivider core payload).emitted = [] := by
  simp only [readResPq] at h
  by_cases h1 : (inputStream.readTLValue payload).1 = tl.ResPQ
  case neg => simp [answerPqAuthorization, h1]
  by_cases h2 : (inputStream.readNumber128 (inputStream.readTLValue payload).2).1
      = core.m_clientNonce
  case neg => simp [answerPqAuthorization, h1, h2]
  by_cases h3 : (inputStream.readByteArray (inputStream.readNumber128
      (inputStream.readNumber128 (inputStream.readTLValue payload).2).2).2).1.length = 8
  case neg => simp [answerPqAuthorization, h1, h2, h3]
  by_cases h4 : findDivider (qFromBigEndian 8 (inputStream.readByteArray
      (inputStream.readNumber128 (inputStream.readNumber128
        (inputStream.readTLValue payload).2).2).2).1) = 1
  case pos => simp [answerPqAuthorization, h1, h2, h3, h4]
  by_cases h5 : (inputStream.readVector64 (inputStream.readByteArray
      (inputStream.readNumber128 (inputStream.readNumber128
        (inputStream.readTLValue payload).2).2).2).2).1.length = 1
  case neg => simp [answerPqAuthorization, h1, h2, h3, h4, h5]
  exact absurd ⟨h1, h2, h3, h4, h5⟩ h

/-- A call that passes the five checks before the key match: what it emits,
what it returns, and the composite and the factors it stores. -/
theorem answerPqAuthorization_of_checks (tl : TLValues) (inputStream : CTelegramStream)
    (findDivider : Nat → Nat) (core : CTelegramCore) (payload : QByteArray)
    (h1 : (readResPq inputStream payload).responsePqValue = tl.ResPQ)
    (h2 : (readResPq inputStream payload).clientNonce = core.m_clientNonce)
    (h3 : (readResPq inputStream payload).pq.length = 8)
    (h4 : findDivider (qFromBigEndian 8 (readResPq inputStream payload).pq) ≠ 1)
    (h5 : (readResPq inputStream payload).fingersprints.length = 1) :
    (answerPqAuthorization tl inputStream findDivider core payload).emitted
        = [Signal.pqReceived] ∧
      ((answerPqAuthorization tl inputStream findDivider core payload).result = true ↔
        core.m_rsaKey.fingersprint = (readResPq inputStream payload).fingersprints.headD 0) ∧
      (answerPqAuthorization tl inputStream findDivider core payload).core.m_pq
        = qFromBigEndian 8 (readResPq inputStream payload).pq ∧
      (answerPqAuthorization tl inputStream findDivider core payload).core.m_p
        = (if findDivider (qFromBigEndian 8 (readResPq inputStream payload).pq)
              < qFromBigEndian 8 (readResPq inputStream payload).pq
                / findDivider (qFromBigEndian 8 (readResPq inputStream payload).pq)
            then findDivider (qFromBigEndian 8 (readResPq inputStream payload).pq)
            else qFromBigEndian 8 (readResPq inputStream payload).pq
                / findDivider (qFromBigEndian 8 (readResPq inputStream payload).pq)) % 2 ^ 32 ∧
      (answerPqAuthorization tl inputStream findDivider core payload).core.m_q
        = (if findDivider (qFromBigEndian 8 (readResPq inputStream payload).pq)
              < qFromBigEndian 8 (readResPq inputStream payload).pq
                / findDivider (qFromBigEndian 8 (readResPq inputStream payload).pq)
            then qFromBigEndian 8 (readResPq inputStream payload).pq
                / findDivider (qFromBigEndian 8 (readResPq inputStream payload).pq)
            else findDivider (qFromBigEndian 8 (readResPq inputStream payload).pq)) % 2 ^ 32 := by
  simp only [readResPq] at h1 h2 h3 h4 h5 ⊢
  simp only [answerPqAuthorization, h1, h2, h3, h4, h5, ne_eq, not_true_eq_false, if_false]
  refine ⟨?_, ?_, ?_, ?_, ?_⟩
  · split_ifs <;> rfl
  · split_ifs <;> simp_all
  · split_ifs <;> rfl
  · split_ifs <;> rfl
  · split_ifs <;> rfl

/-- A call that returns true has passed the five checks before the key match. -/
theorem answerPqAuthorization_checks_of_accepted (tl : TLValues)
    (inputStream : CTelegramStream) (findDivider : Nat → Nat) (core : CTelegramCore)
    (payload : QByteArray)
    (h : (answerPqAuthorization tl inputStream findDivider core payload).result = true) :
    (readResPq inputStream payload).responsePqValue = tl.ResPQ ∧
      (readResPq inputStream payload).clientNonce = core.m_clientNonce ∧
      (readResPq inputStream payload).pq.length = 8 ∧
      findDivider (qFromBigEndian 8 (readResPq inputStream payload).pq) ≠ 1 ∧
      (readResPq inputStream payload).fingersprints.length = 1 := by
  by_contra hnot
  have hfalse := (answerPqAuthorization_of_failed_check tl inputStream findDivider core
    payload hnot).1
  rw [h] at hfalse
  exact Bool.noConfusion hfalse

/-- The little-endian bytes of the number that a byte sequence denotes read
most significant byte first are the sequence reversed. -/
theorem littleEndianBytes_foldl (b : QByteArray) :
    littleEndianBytes b.length (b.foldl (fun acc c => acc * 256 + c.val) 0) = b.reverse := by
  induction b using List.reverseRecOn with
  | nil => rfl
  | append_singleton xs x ih =>
    rw [foldl_bigEndian_append, List.length_append, List.length_singleton,
      List.reverse_append, List.reverse_singleton, List.singleton_append]
    simp only [littleEndianBytes]
    have hx := x.isLt
    have hq : (List.foldl (fun acc c => acc * 256 + c.val) 0 xs * 256 + x.val) / 256
        = List.foldl (fun acc c => acc * 256 + c.val) 0 xs := by omega
    have hb : toByte (List.foldl (fun acc c => acc * 256 + c.val) 0 xs * 256 + x.val) = x := by
      apply Fin.ext
      simp only [toByte]
      omega
    rw [hq, hb, ih]

/-- Reading a byte sequence as a big-endian number and writing the number back
in as many big-endian bytes gives the sequence. -/
theorem bigEndianBytes_qFromBigEndian (b : QByteArray) :
    bigEndianBytes b.length (qFromBigEndian b.length b) = b := by
  unfold bigEndianBytes qFromBigEndian
  rw [List.take_of_length_le (Nat.le_refl _), littleEndianBytes_foldl, List.reverse_reverse]

/-! ### Further claims about `answerPqAuthorization` -/

/-- C14 as stated fails: a response that passes every check but the last, with a
single fingerprint that is not the one of the loaded key, is rejected after
`pqReceived` was emitted. -/
theorem answerPqAuthorization_emits_then_rejects_counterexample :
    (answerPqAuthorization mtprotoTags (specStream mtprotoVectorTag) trialDivider
        scenarioCore wrongFingerprintPayload).result = false ∧
      (answerPqAuthorization mtprotoTags (specStream mtprotoVectorTag) trialDivider
        scenarioCore wrongFingerprintPayload).emitted = [Signal.pqReceived] := by
  decide

/-- C14, amended: provided the divider search, when the call gets to it, does not
return 0 (the division of line 150 would be undefined and the call would not
get to the emission), `pqReceived` is emitted exactly once by every call of
`answerPqAuthorization` that passes the tag, client-nonce, composite-length,
divider and fingerprint-count checks, and not at all by any other call. So
every call that returns true emits it once, a call that is rejected only at
the final key-match check emits it once as well, and a call rejected at an
earlier check does not emit it. An emission comes after a division by a
divider that is not 0. -/
theorem answerPqAuthorization_pqReceived (tl : TLValues) (inputStream : CTelegramStream)
    (findDivider : Nat → Nat) (core : CTelegramCore) (payload : QByteArray)
    (hdef : ((readResPq inputStream payload).responsePqValue = tl.ResPQ ∧
        (readResPq inputStream payload).clientNonce = core.m_clientNonce ∧
        (readResPq inputStream payload).pq.length = 8) →
      findDivider (qFromBigEndian 8 (readResPq inputStream payload).pq) ≠ 0) :
    ((answerPqAuthorization tl inputStream findDivider core payload).emitted
        = [Signal.pqReceived] ↔
      ((readResPq inputStream payload).responsePqValue = tl.ResPQ ∧
        (readResPq inputStream payload).clientNonce = core.m_clientNonce ∧
        (readResPq inputStream payload).pq.length = 8 ∧
        findDivider (qFromBigEndian 8 (readResPq inputStream payload).pq) ≠ 1 ∧
        (readResPq inputStream payload).fingersprints.length = 1)) ∧
    ((answerPqAuthorization tl inputStream findDivider core payload).emitted = [] ↔
      ¬ ((readResPq inputStream payload).responsePqValue = tl.ResPQ ∧
        (readResPq inputStream payload).clientNonce = core.m_clientNonce ∧
        (readResPq inputStream payload).pq.length = 8 ∧
        findDivider (qFromBigEndian 8 (readResPq inputStream payload).pq) ≠ 1 ∧
        (readResPq inputStream payload).fingersprints.length = 1)) ∧
    ((answerPqAuthorization tl inputStream findDivider core payload).result = true ↔
      ((answerPqAuthorization tl inputStream findDivider core payload).emitted
          = [Signal.pqReceived] ∧
        core.m_rsaKey.fingersprint
          = (readResPq inputStream payload).fingersprints.headD 0)) ∧
    ((answerPqAuthorization tl inputStream findDivider core payload).emitted
        = [Signal.pqReceived] →
      findDivider (qFromBigEndian 8 (readResPq inputStream payload).pq) ≠ 0) := by
  by_cases hP : ((readResPq inputStream payload).responsePqValue = tl.ResPQ ∧
        (readResPq inputStream payload).clientNonce = core.m_clientNonce ∧
        (readResPq inputStream payload).pq.length = 8 ∧
        findDivider (qFromBigEndian 8 (readResPq inputStream payload).pq) ≠ 1 ∧
        (readResPq inputStream payload).fingersprints.length = 1)
  · obtain ⟨h1, h2, h3, h4, h5⟩ := hP
    have h := answerPqAuthorization_of_checks tl inputStream findDivider core payload
      h1 h2 h3 h4 h5
    refine ⟨?_, ?_, ?_, fun _ => hdef ⟨h1, h2, h3⟩⟩
    · exact ⟨fun _ => ⟨h1, h2, h3, h4, h5⟩, fun _ => h.1⟩
    · rw [h.1]
      exact ⟨fun hnil => absurd hnil (List.cons_ne_nil _ _),
        fun hnot => absurd ⟨h1, h2, h3, h4, h5⟩ hnot⟩
    · rw [h.2.1]
      exact ⟨fun hkey => ⟨h.1, hkey⟩, fun hboth => hboth.2⟩
  · have h := answerPqAuthorization_of_failed_check tl inputStream findDivider core
      payload hP
    refine ⟨?_, ?_, ?_, ?_⟩
    · rw [h.2]
      exact ⟨fun hnil => absurd hnil.symm (List.cons_ne_nil _ _), fun hyes => absurd hyes hP⟩
    · exact ⟨fun _ => hP, fun _ => h.2⟩
    · rw [h.1, h.2]
      exact ⟨fun hft => Bool.noConfusion hft,
        fun hboth => absurd hboth.1.symm (List.cons_ne_nil _ _)⟩
    · rw [h.2]
      exact fun hnil => absurd hnil.symm (List.cons_ne_nil _ _)

/-- The amended C14 at the response with a single fingerprint that is not the
key's: the trial division finds 17, the signal is emitted, the call returns
false. -/
theorem answerPqAuthorization_pqReceived_witness :
    (((readResPq (specStream mtprotoVectorTag) wrongFingerprintPayload).responsePqValue = mtprotoTags.ResPQ ∧
        (readResPq (specStream mtprotoVectorTag) wrongFingerprintPayload).clientNonce = scenarioCore.m_clientNonce ∧
        (readResPq (specStream mtprotoVectorTag) wrongFingerprintPayload).pq.length = 8) →
      trialDivider (qFromBigEndian 8 (readResPq (specStream mtprotoVectorTag) wrongFingerprintPayload).pq) ≠ 0) ∧
    (((answerPqAuthorization mtprotoTags (specStream mtprotoVectorTag) trialDivider
        scenarioCore wrongFingerprintPayload).emitted
        = [Signal.pqReceived] ↔
      ((readResPq (specStream mtprotoVectorTag) wrongFingerprintPayload).responsePqValue = mtprotoTags.ResPQ ∧
        (readResPq (specStream mtprotoVectorTag) wrongFingerprintPayload).clientNonce = scenarioCore.m_clientNonce ∧
        (readResPq (specStream mtprotoVectorTag) wrongFingerprintPayload).pq.length = 8 ∧
        trialDivider (qFromBigEndian 8 (readResPq (specStream mtprotoVectorTag) wrongFingerprintPayload).pq) ≠ 1 ∧
        (readResPq (specStream mtprotoVectorTag) wrongFingerprintPayload).fingersprints.length = 1)) ∧
    ((answerPqAuthorization mtprotoTags (specStream mtprotoVectorTag) trialDivider
        scenarioCore wrongFingerprintPayload).emitted = [] ↔
      ¬ ((readResPq (specStream mtprotoVectorTag) wrongFingerprintPayload).responsePqValue = mtprotoTags.ResPQ ∧
        (readResPq (specStream mtprotoVectorTag) wrongFingerprintPayload).clientNonce = scenarioCore.m_clientNonce ∧
        (readResPq (specStream mtprotoVectorTag) wrongFingerprintPayload).pq.length = 8 ∧
        trialDivider (qFromBigEndian 8 (readResPq (specStream mtprotoVectorTag) wrongFingerprintPayload).pq) ≠ 1 ∧
        (readResPq (specStream mtprotoVectorTag) wrongFingerprintPayload).fingersprints.length = 1)) ∧
    ((answerPqAuthorization mtprotoTags (specStream mtprotoVectorTag) trialDivider
        scenarioCore wrongFingerprintPayload).result = true ↔
      ((answerPqAuthorization mtprotoTags (specStream mtprotoVectorTag) trialDivider
        scenarioCore wrongFingerprintPayload).emitted
          = [Signal.pqReceived] ∧
        scenarioCore.m_rsaKey.fingersprint
          = (readResPq (specStream mtprotoVectorTag) wrongFingerprintPayload).fingersprints.headD 0)) ∧
    ((answerPqAuthorization mtprotoTags (specStream mtprotoVectorTag) trialDivider
        scenarioCore wrongFingerprintPayload).emitted
        = [Signal.pqReceived] →
      trialDivider (qFromBigEndian 8 (readResPq (specStream mtprotoVectorTag) wrongFingerprintPayload).pq) ≠ 0)) :=
  ⟨by decide, answerPqAuthorization_pqReceived mtprotoTags (specStream mtprotoVectorTag)
    trialDivider scenarioCore wrongFingerprintPayload (by decide)⟩

/-- C16 as stated fails, in two ways. With a divider search that returns the
composite itself (no nontrivial divisor: `323` is not below `323`), the
response of the scenario is accepted and leaves `m_p = 1`, `m_q = 323`. With a
divider search that returns the nontrivial divisor 2 of the composite `2^33`,
the response is accepted and leaves `m_p = 2`, `m_q = 0`, since `2^32` does
not fit `m_q`. -/
theorem answerPqAuthorization_divider_counterexample :
    (qFromBigEndian 8 (readResPq (specStream mtprotoVectorTag) scenarioPayload).pq = 323 ∧
      ¬ (1 < (fun n : Nat => n) 323 ∧ (fun n : Nat => n) 323 < 323 ∧
        (fun n : Nat => n) 323 ∣ 323) ∧
      (answerPqAuthorization mtprotoTags (specStream mtprotoVectorTag) (fun n => n)
        scenarioCore scenarioPayload).result = true ∧
      (answerPqAuthorization mtprotoTags (specStream mtprotoVectorTag) (fun n => n)
        scenarioCore scenarioPayload).core.m_p = 1 ∧
      (answerPqAuthorization mtprotoTags (specStream mtprotoVectorTag) (fun n => n)
        scenarioCore scenarioPayload).core.m_q = 323) ∧
    (qFromBigEndian 8 (readResPq (specStream mtprotoVectorTag) wideFactorPayload).pq
        = 2 ^ 33 ∧
      (1 < (fun _ : Nat => 2) (2 ^ 33) ∧ (fun _ : Nat => 2) (2 ^ 33) < 2 ^ 33 ∧
        (fun _ : Nat => 2) (2 ^ 33) ∣ 2 ^ 33) ∧
      (answerPqAuthorization mtprotoTags (specStream mtprotoVectorTag) (fun _ => 2)
        scenarioCore wideFactorPayload).result = true ∧
      (answerPqAuthorization mtprotoTags (specStream mtprotoVectorTag) (fun _ => 2)
        scenarioCore wideFactorPayload).core.m_p = 2 ∧
      (answerPqAuthorization mtprotoTags (specStream mtprotoVectorTag) (fun _ => 2)
        scenarioCore wideFactorPayload).core.m_q = 0 ∧
      (answerPqAuthorization mtprotoTags (specStream mtprotoVectorTag) (fun _ => 2)
        scenarioCore wideFactorPayload).core.m_p
        * (answerPqAuthorization mtprotoTags (specStream mtprotoVectorTag) (fun _ => 2)
        scenarioCore wideFactorPayload).core.m_q ≠ 2 ^ 33) := by
  decide

/-- C16, amended: let `n` be the composite and `d` what the divider search
returns on it, and let `d` be either 1 (the value by which the search reports
failure) or a nontrivial divisor of `n` such that `d` and `n / d` are below
`2^32`. Then whenever the search does not yield a nontrivial divisor,
`answerPqAuthorization` rejects the response; and every accepted response
leaves `m_p` and `m_q` with `1 < m_p ≤ m_q < n` and `m_p * m_q = n`. -/
theorem answerPqAuthorization_divider_contract (tl : TLValues)
    (inputStream : CTelegramStream) (findDivider : Nat → Nat) (core : CTelegramCore)
    (payload : QByteArray)
    (hcontract : findDivider (qFromBigEndian 8 (readResPq inputStream payload).pq) = 1 ∨
      (1 < findDivider (qFromBigEndian 8 (readResPq inputStream payload).pq) ∧
        findDivider (qFromBigEndian 8 (readResPq inputStream payload).pq)
          < qFromBigEndian 8 (readResPq inputStream payload).pq ∧
        findDivider (qFromBigEndian 8 (readResPq inputStream payload).pq)
          ∣ qFromBigEndian 8 (readResPq inputStream payload).pq ∧
        findDivider (qFromBigEndian 8 (readResPq inputStream payload).pq) < 2 ^ 32 ∧
        qFromBigEndian 8 (readResPq inputStream payload).pq
          / findDivider (qFromBigEndian 8 (readResPq inputStream payload).pq) < 2 ^ 32)) :
    (¬ (1 < findDivider (qFromBigEndian 8 (readResPq inputStream payload).pq) ∧
        findDivider (qFromBigEndian 8 (readResPq inputStream payload).pq)
          < qFromBigEndian 8 (readResPq inputStream payload).pq ∧
        findDivider (qFromBigEndian 8 (readResPq inputStream payload).pq)
          ∣ qFromBigEndian 8 (readResPq inputStream payload).pq) →
      (answerPqAuthorization tl inputStream findDivider core payload).result = false) ∧
    ((answerPqAuthorization tl inputStream findDivider core payload).result = true →
      1 < (answerPqAuthorization tl inputStream findDivider core payload).core.m_p ∧
      (answerPqAuthorization tl inputStream findDivider core payload).core.m_p
        ≤ (answerPqAuthorization tl inputStream findDivider core payload).core.m_q ∧
      (answerPqAuthorization tl inputStream findDivider core payload).core.m_q
        < qFromBigEndian 8 (readResPq inputStream payload).pq ∧
      (answerPqAuthorization tl inputStream findDivider core payload).core.m_p
        * (answerPqAuthorization tl inputStream findDivider core payload).core.m_q
        = qFromBigEndian 8 (readResPq inputStream payload).pq) := by
  rcases hcontract with hone | ⟨hd1, hdn, hdvd, hd32, hq32⟩
  · have hrej : (answerPqAuthorization tl inputStream findDivider core payload).result
        = false :=
      (answerPqAuthorization_of_failed_check tl inputStream findDivider core payload
        (fun hP => hP.2.2.2.1 hone)).1
    refine ⟨fun _ => hrej, fun hacc => ?_⟩
    rw [hrej] at hacc
    exact Bool.noConfusion hacc
  · refine ⟨fun hnot => absurd ⟨hd1, hdn, hdvd⟩ hnot, fun hacc => ?_⟩
    obtain ⟨h1, h2, h3, h4, h5⟩ := answerPqAuthorization_checks_of_accepted tl inputStream
      findDivider core payload hacc
    obtain ⟨_, _, _, hp, hq⟩ := answerPqAuthorization_of_checks tl inputStream findDivider
      core payload h1 h2 h3 h4 h5
    rw [hp, hq]
    generalize qFromBigEndian 8 (readResPq inputStream payload).pq = n at hd1 hdn hdvd hd32 hq32 ⊢
    generalize findDivider n = d at hd1 hdn hdvd hd32 hq32 ⊢
    obtain ⟨k, rfl⟩ := hdvd
    have hd0 : 0 < d := by omega
    rw [Nat.mul_div_cancel_left k hd0] at hq32 ⊢
    have hk2 : 2 ≤ k := by
      rcases k with _ | _ | k
      · simp at hdn
      · simp at hdn
      · omega
    have hkn : k < d * k := by nlinarith
    norm_num at hd32 hq32 ⊢
    split_ifs with hlt
    · rw [Nat.mod_eq_of_lt hd32, Nat.mod_eq_of_lt hq32]
      exact ⟨hd1, Nat.le_of_lt hlt, hkn, rfl⟩
    · rw [Nat.mod_eq_of_lt hd32, Nat.mod_eq_of_lt hq32]
      exact ⟨by omega, by omega, hdn, Nat.mul_comm k d⟩

/-- The amended C16 at the scenario: `323 = 17 * 19`, the trial division finds 17. -/
theorem answerPqAuthorization_divider_contract_witness :
    (trialDivider (qFromBigEndian 8
          (readResPq (specStream mtprotoVectorTag) scenarioPayload).pq) = 1 ∨
      (1 < trialDivider (qFromBigEndian 8
          (readResPq (specStream mtprotoVectorTag) scenarioPayload).pq) ∧
        trialDivider (qFromBigEndian 8
          (readResPq (specStream mtprotoVectorTag) scenarioPayload).pq)
          < qFromBigEndian 8 (readResPq (specStream mtprotoVectorTag) scenarioPayload).pq ∧
        trialDivider (qFromBigEndian 8
          (readResPq (specStream mtprotoVectorTag) scenarioPayload).pq)
          ∣ qFromBigEndian 8 (readResPq (specStream mtprotoVectorTag) scenarioPayload).pq ∧
        trialDivider (qFromBigEndian 8
          (readResPq (specStream mtprotoVectorTag) scenarioPayload).pq) < 2 ^ 32 ∧
        qFromBigEndian 8 (readResPq (specStream mtprotoVectorTag) scenarioPayload).pq
          / trialDivider (qFromBigEndian 8
          (readResPq (specStream mtprotoVectorTag) scenarioPayload).pq) < 2 ^ 32)) ∧
    ((¬ (1 < trialDivider (qFromBigEndian 8
          (readResPq (specStream mtprotoVectorTag) scenarioPayload).pq) ∧
        trialDivider (qFromBigEndian 8
          (readResPq (specStream mtprotoVectorTag) scenarioPayload).pq)
          < qFromBigEndian 8 (readResPq (specStream mtprotoVectorTag) scenarioPayload).pq ∧
        trialDivider (qFromBigEndian 8
          (readResPq (specStream mtprotoVectorTag) scenarioPayload).pq)
          ∣ qFromBigEndian 8 (readResPq (specStream mtprotoVectorTag) scenarioPayload).pq) →
      (answerPqAuthorization mtprotoTags (specStream mtprotoVectorTag) trialDivider
        scenarioCore scenarioPayload).result = false) ∧
    ((answerPqAuthorization mtprotoTags (specStream mtprotoVectorTag) trialDivider
        scenarioCore scenarioPayload).result = true →
      1 < (answerPqAuthorization mtprotoTags (specStream mtprotoVectorTag) trialDivider
        scenarioCore scenarioPayload).core.m_p ∧
      (answerPqAuthorization mtprotoTags (specStream mtprotoVectorTag) trialDivider
        scenarioCore scenarioPayload).core.m_p
        ≤ (answerPqAuthorization mtprotoTags (specStream mtprotoVectorTag) trialDivider
        scenarioCore scenarioPayload).core.m_q ∧
      (answerPqAuthorization mtprotoTags (specStream mtprotoVectorTag) trialDivider
        scenarioCore scenarioPayload).core.m_q
        < qFromBigEndian 8 (readResPq (specStream mtprotoVectorTag) scenarioPayload).pq ∧
      (answerPqAuthorization mtprotoTags (specStream mtprotoVectorTag) trialDivider
        scenarioCore scenarioPayload).core.m_p
        * (answerPqAuthorization mtprotoTags (specStream mtprotoVectorTag) trialDivider
        scenarioCore scenarioPayload).core.m_q
        = qFromBigEndian 8 (readResPq (specStream mtprotoVectorTag) scenarioPayload).pq)) :=
  ⟨by decide, answerPqAuthorization_divider_contract mtprotoTags
    (specStream mtprotoVectorTag) trialDivider scenarioCore scenarioPayload (by decide)⟩

/-! ### The claim about the composite bytes -/

/-- C19: for every composite string `b` received in an accepted response (it has
8 bytes), the 8 composite bytes that `requestDhParameters` afterwards writes
into the inner data (after the 4 bytes of the tag and the length byte) are
exactly `b`: the stored composite is `b` read as a big-endian integer, its 8
big-endian bytes are `b` again, and reading and writing back is the identity
on every string of 8 bytes. -/
theorem composite_bytes_roundtrip (tl : TLValues) (inputStream : CTelegramStream)
    (findDivider : Nat → Nat) (core : CTelegramCore) (payload : QByteArray)
    (sha1 : QByteArray → QByteArray) (rsa : QByteArray → SRsaKey → QByteArray)
    (rnd : Nat → Byte)
    (hacc : (answerPqAuthorization tl inputStream findDivider core payload).result = true) :
    (readResPq inputStream payload).pq.length = 8 ∧
      (answerPqAuthorization tl inputStream findDivider core payload).core.m_pq
        = qFromBigEndian 8 (readResPq inputStream payload).pq ∧
      bigEndianBytes 8 (answerPqAuthorization tl inputStream findDivider core payload).core.m_pq
        = (readResPq inputStream payload).pq ∧
      (((requestDhParameters tl sha1 rsa rnd
          (answerPqAuthorization tl inputStream findDivider core payload).core).innerData.drop
            5).take 8 = (readResPq inputStream payload).pq) ∧
      (∀ b : QByteArray, b.length = 8 → bigEndianBytes 8 (qFromBigEndian 8 b) = b) := by
  have hid : ∀ b : QByteArray, b.length = 8 → bigEndianBytes 8 (qFromBigEndian 8 b) = b := by
    intro b hb
    have h := bigEndianBytes_qFromBigEndian b
    rw [hb] at h
    exact h
  obtain ⟨h1, h2, h3, h4, h5⟩ := answerPqAuthorization_checks_of_accepted tl inputStream
    findDivider core payload hacc
  obtain ⟨_, _, hpq, _, _⟩ := answerPqAuthorization_of_checks tl inputStream findDivider
    core payload h1 h2 h3 h4 h5
  have hbytes : bigEndianBytes 8
      (answerPqAuthorization tl inputStream findDivider core payload).core.m_pq
      = (readResPq inputStream payload).pq := by
    rw [hpq]
    exact hid _ h3
  refine ⟨h3, hpq, hbytes, ?_, hid⟩
  rw [requestDhParameters_innerData_eq,
    writeByteArray_of_length_eight _ (bigEndianBytes_length 8 _), hbytes]
  simp only [List.append_assoc, List.cons_append]
  rw [← List.singleton_append, ← List.append_assoc (writeTLValue tl.PQInnerData),
    ← List.append_assoc (writeTLValue tl.PQInnerData ++ [toByte 8])]
  apply segment_of_append
  · simp [writeTLValue, writeUInt32, littleEndianBytes_length]
  · exact h3

/-- C19 at the accepted response of the scenario. -/
theorem composite_bytes_roundtrip_witness :
    (answerPqAuthorization mtprotoTags (specStream mtprotoVectorTag) trialDivider
        scenarioCore scenarioPayload).result = true ∧
    ((readResPq (specStream mtprotoVectorTag) scenarioPayload).pq.length = 8 ∧
      (answerPqAuthorization mtprotoTags (specStream mtprotoVectorTag) trialDivider
        scenarioCore scenarioPayload).core.m_pq
        = qFromBigEndian 8 (readResPq (specStream mtprotoVectorTag) scenarioPayload).pq ∧
      bigEndianBytes 8 (answerPqAuthorization mtprotoTags (specStream mtprotoVectorTag)
        trialDivider scenarioCore scenarioPayload).core.m_pq
        = (readResPq (specStream mtprotoVectorTag) scenarioPayload).pq ∧
      (((requestDhParameters mtprotoTags lengthDigest reverseCipher countingBytes
          (answerPqAuthorization mtprotoTags (specStream mtprotoVectorTag) trialDivider
            scenarioCore scenarioPayload).core).innerData.drop 5).take 8
        = (readResPq (specStream mtprotoVectorTag) scenarioPayload).pq) ∧
      (∀ b : QByteArray, b.length = 8 → bigEndianBytes 8 (qFromBigEndian 8 b) = b)) :=
  ⟨by decide, composite_bytes_roundtrip mtprotoTags (specStream mtprotoVectorTag)
    trialDivider scenarioCore scenarioPayload lengthDigest reverseCipher countingBytes
    (by decide)⟩

end TelegramQt
